import Mathlib

/-!
Verification development for the bouf release-engineering pipeline.

The repository's only committed source file is `src/main.rs`, the pipeline
orchestrator; the collaborator modules (`models`, `steps`, `utils`) are
declared there but their code is not in the repository.  Accordingly:

* the orchestrator (`runMain` below, with its stage functions) is a shallow
  embedding of `src/main.rs`, with every collaborator call abstracted as an
  oracle (`Collab`) that may succeed or fail arbitrarily;
* the diff engine, version-catalog scanner, manifest builder and artifact
  signer are modelled from the specification's words (each such definition's
  doc comment starts with `Modelled from the spec:`).

Exit behaviour is modelled by the `error` field of the final `RunState`:
`none` is a zero exit, `some e` a non-zero exit carrying the `anyhow`
error chain `e`.
-/

namespace Bouf

/-! ### Content digest & diff engine -/

/-- Modelled from the spec: `digest(bytes) -> Digest`, a deterministic
fixed-size (64-bit) content hash, an FNV-style fold over the bytes.  The
concrete hash of the missing `utils` module is not in the repository. -/
def digest (b : List Nat) : Nat :=
  b.foldl (fun h x => (h * 1099511628211 + x % 256) % 18446744073709551616)
    14695981039346656037

/-- Modelled from the spec: a generated binary patch artifact.  It records the
digest of the old bytes at patch-creation time and the data needed to
reconstruct the new bytes; the bsdiff-style compression of the real engine is
not in the repository, so the body is kept abstractly as that byte sequence. -/
structure PatchArtifact where
  oldDigest : Nat
  newData : List Nat
deriving DecidableEq

/-- Modelled from the spec: `diff(old_bytes, new_bytes) -> PatchArtifact`,
deterministic in its two inputs, recording `digest old` for the apply-time
integrity check. -/
def diff (old new : List Nat) : PatchArtifact :=
  { oldDigest := digest old, newData := new }

/-- Error raised by the diff engine when a patch does not match the digest of
the old bytes recorded at patch-creation time. -/
inductive DiffError
  | corruptPatch
deriving DecidableEq

/-- Modelled from the spec: `apply(old_bytes, patch_artifact) -> new_bytes`,
failing with `CorruptPatch` exactly when the patch does not match the digest
of `old_bytes` recorded at patch-creation time. -/
def applyPatch (old : List Nat) (p : PatchArtifact) : Except DiffError (List Nat) :=
  if digest old = p.oldDigest then Except.ok p.newData
  else Except.error DiffError.corruptPatch

/-! ### Artifact signer -/

/-- Modelled from the spec: a private signing key, identified by its key id. -/
structure PrivateKey where
  keyId : Nat
deriving DecidableEq

/-- Modelled from the spec: the public key (identifier) corresponding to a
private key. -/
def publicKeyOf (k : PrivateKey) : Nat := k.keyId

/-- Modelled from the spec: a detached signature over the finalized manifest
bytes plus the identifier of the key used.  This is the standard symbolic
model of a signature scheme: the signature is an opaque token binding the
signed bytes to the signing key; `nonce` carries any algorithm-mandated
randomness, so two signatures over identical input need not be equal. -/
structure Signature where
  keyId : Nat
  nonce : Nat
  signed : List Nat
deriving DecidableEq

/-- Modelled from the spec: `sign(bytes, key) -> Signature` (with the
algorithm's randomness made explicit as `nonce`). -/
def sign (bytes : List Nat) (k : PrivateKey) (nonce : Nat) : Signature :=
  { keyId := k.keyId, nonce := nonce, signed := bytes }

/-- Modelled from the spec: `verify(manifest_bytes, signature, public_key) ->
bool`; a total Boolean function, so malformed input is a verification
failure (`false`), never an error. -/
def verify (bytes : List Nat) (s : Signature) (pk : Nat) : Bool :=
  decide (s.keyId = pk) && decide (s.signed = bytes)

/-! ### Versions and the version-catalog scanner -/

/-- Modelled from the spec: an ordered, comparable version identifier
(numeric tuple parsed from a semantic-version directory name). -/
structure Version where
  major : Nat
  minor : Nat
  patch : Nat
deriving DecidableEq

/-- Strict lexicographic order on versions, as a Boolean comparison. -/
def Version.ltb (a b : Version) : Bool :=
  decide (a.major < b.major) ||
    (decide (a.major = b.major) && (decide (a.minor < b.minor) ||
      (decide (a.minor = b.minor) && decide (a.patch < b.patch))))

/-- A previous-version subdirectory name, as a character sequence. -/
abbrev DirName := List Char

/-- Split a directory name at every dot. -/
def splitDots : DirName → List DirName
  | [] => [[]]
  | ch :: rest =>
    if ch = '.' then [] :: splitDots rest
    else
      match splitDots rest with
      | [] => [[ch]]
      | p :: ps => (ch :: p) :: ps

/-- Parse one dot-separated component: its leading decimal digits (a
trailing non-digit suffix such as `-copy` is ignored, so a copied directory
still claims the same version); no leading digit means no version. -/
def parseComponent (s : DirName) : Option Nat :=
  let d := s.takeWhile Char.isDigit
  if d.isEmpty then none
  else some (d.foldl (fun n c => n * 10 + (c.toNat - 48)) 0)

/-- Modelled from the spec: parse a subdirectory name into a `Version`; a
name that does not parse is reported as `none` (the scanner skips it with a
warning). -/
def parseVersion (name : DirName) : Option Version :=
  match splitDots name with
  | [a, b, c] =>
    match parseComponent a, parseComponent b, parseComponent c with
    | some x, some y, some z => some { major := x, minor := y, patch := z }
    | _, _, _ => none
  | _ => none

/-- A relative path below a release tree's root, as a byte sequence. -/
abbrev RelPath := List Nat

/-- Modelled from the spec: one regular file of a release tree, by relative
path; the content is kept so that the diff engine can read the file's bytes,
and the recorded size and digest are derived from it. -/
structure FileRecord where
  path : RelPath
  content : List Nat
deriving DecidableEq

/-- Modelled from the spec: a `ReleaseTree`, an immutable snapshot of the
regular files beneath one release's root directory. -/
structure ReleaseTree where
  files : List FileRecord
deriving DecidableEq

/-- Scanner errors: `configError` for ambiguous (duplicate) previous-version
directories, `ioError` for a missing or unreadable root. -/
inductive ScanError
  | configError
  | ioError
deriving DecidableEq

/-- Insert a scanned (version, tree) pair into a version-ascending list,
failing with `configError` on a duplicate version (ambiguous which tree is
authoritative). -/
def insertVersioned (x : Version × ReleaseTree) :
    List (Version × ReleaseTree) → Except ScanError (List (Version × ReleaseTree))
  | [] => Except.ok [x]
  | y :: ys =>
    if Version.ltb x.1 y.1 then Except.ok (x :: y :: ys)
    else if Version.ltb y.1 x.1 then
      match insertVersioned x ys with
      | Except.ok zs => Except.ok (y :: zs)
      | Except.error e => Except.error e
    else Except.error ScanError.configError

/-- Walk the subdirectories: unparseable names are skipped, parsed versions
are inserted in ascending order with duplicate detection. -/
def scanAux : List (DirName × ReleaseTree) → List (Version × ReleaseTree) →
    Except ScanError (List (Version × ReleaseTree))
  | [], acc => Except.ok acc
  | (name, tree) :: rest, acc =>
    match parseVersion name with
    | none => scanAux rest acc
    | some v =>
      match insertVersioned (v, tree) acc with
      | Except.error e => Except.error e
      | Except.ok acc2 => scanAux rest acc2

/-- Modelled from the spec: `scan(previous_versions_root)`, yielding the
previous (version, tree) pairs sorted ascending by version; `none` stands
for a missing or unreadable root (`ioError`), duplicate versions are a
`configError`. -/
def scan (root : Option (List (DirName × ReleaseTree))) :
    Except ScanError (List (Version × ReleaseTree)) :=
  match root with
  | none => Except.error ScanError.ioError
  | some dirs => scanAux dirs []

/-- The versions the scanner discovers in a subdirectory list, in listing
order (unparseable names contribute nothing). -/
def parsedVersions (dirs : List (DirName × ReleaseTree)) : List Version :=
  dirs.filterMap (fun d => parseVersion d.1)

/-! ### File deltas and the manifest builder -/

/-- Modelled from the spec: the relation between one relative path in a
previous release tree and its counterpart in the current tree. -/
inductive FileDelta
  | added (p : RelPath) (newDigest : Nat)
  | removed (p : RelPath)
  | unchanged (p : RelPath) (sharedDigest : Nat)
  | changed (p : RelPath) (oldDigest newDigest : Nat) (patch : PatchArtifact)
deriving DecidableEq

/-- The relative path a `FileDelta` is about. -/
def FileDelta.path : FileDelta → RelPath
  | added p _ => p
  | removed p => p
  | unchanged p _ => p
  | changed p _ _ _ => p

/-- The size of the patch artifact a delta carries (`0` when none). -/
def FileDelta.patchSize : FileDelta → Nat
  | changed _ _ _ pa => pa.newData.length
  | _ => 0

/-- Strict lexicographic order on relative paths, as a Boolean comparison. -/
def pathLt : RelPath → RelPath → Bool
  | [], [] => false
  | [], _ :: _ => true
  | _ :: _, [] => false
  | a :: as, b :: bs =>
    if a < b then true
    else if b < a then false
    else pathLt as bs

/-- Insert a path into a strictly ascending path list, dropping duplicates. -/
def insertPath (p : RelPath) : List RelPath → List RelPath
  | [] => [p]
  | q :: qs =>
    if pathLt p q then p :: q :: qs
    else if pathLt q p then q :: insertPath p qs
    else q :: qs

/-- The distinct members of a path list in strictly ascending order. -/
def sortedPaths : List RelPath → List RelPath
  | [] => []
  | p :: ps => insertPath p (sortedPaths ps)

/-- Look a relative path up in a release tree. -/
def findFile (t : ReleaseTree) (p : RelPath) : Option FileRecord :=
  t.files.find? (fun f => f.path == p)

/-- Classify one relative path against the old and current trees:
present only in the current tree is `added`, only in the old tree `removed`,
in both with equal digests `unchanged` (never diffed), with differing
digests `changed` with a patch artifact from the diff engine. -/
def classify (old cur : ReleaseTree) (p : RelPath) : Option FileDelta :=
  match findFile old p, findFile cur p with
  | none, none => none
  | none, some g => some (FileDelta.added p (digest g.content))
  | some _, none => some (FileDelta.removed p)
  | some f, some g =>
    if digest f.content = digest g.content then
      some (FileDelta.unchanged p (digest g.content))
    else
      some (FileDelta.changed p (digest f.content) (digest g.content)
        (diff f.content g.content))

/-- Modelled from the spec: the `FileDelta` sequence of one manifest entry,
one delta for every relative path present in either tree, in deterministic
path-lexicographic order. -/
def fileDeltas (old cur : ReleaseTree) : List FileDelta :=
  (sortedPaths (old.files.map FileRecord.path ++ cur.files.map FileRecord.path)).filterMap
    (classify old cur)

/-- Modelled from the spec: the per-previous-version manifest record. -/
structure ManifestEntry where
  version : Version
  deltas : List FileDelta
  aggregateSize : Nat
deriving DecidableEq

/-- Build the manifest entry for one previous version. -/
def buildEntry (cur : ReleaseTree) (v : Version) (old : ReleaseTree) : ManifestEntry :=
  { version := v
    deltas := fileDeltas old cur
    aggregateSize := ((fileDeltas old cur).map FileDelta.patchSize).sum }

/-- Modelled from the spec: a reference to one full-install artifact
(installer, zip or PDB archive: path, size, digest). -/
structure ArtifactRef where
  name : RelPath
  size : Nat
  digest : Nat
deriving DecidableEq

/-- Modelled from the spec: the manifest — current version, the ordered
per-previous-version entries, the full-artifact references and an optional
signature. -/
structure Manifest where
  version : Version
  entries : List ManifestEntry
  fullArtifacts : List ArtifactRef
  signature : Option Signature
deriving DecidableEq

/-- Modelled from the spec: fold the scanned previous versions into the
manifest, one entry per version in the scanner's ascending order. -/
def buildManifest (curVersion : Version) (cur : ReleaseTree)
    (prevs : List (Version × ReleaseTree)) : Manifest :=
  { version := curVersion
    entries := prevs.map (fun pr => buildEntry cur pr.1 pr.2)
    fullArtifacts := []
    signature := none }

/-- Modelled from the spec: one generator run.  When delta generation is
skipped for the run, `add_version` is never called (the scanner is not even
consulted) and the produced manifest has no delta entries; otherwise the
scanned previous versions are folded into entries. -/
def generatorRunModel (curVersion : Version) (cur : ReleaseTree)
    (root : Option (List (DirName × ReleaseTree))) (skipPatches : Bool) :
    Except ScanError Manifest :=
  if skipPatches then
    Except.ok { version := curVersion, entries := [], fullArtifacts := [],
                signature := none }
  else
    match scan root with
    | Except.error e => Except.error e
    | Except.ok prevs => Except.ok (buildManifest curVersion cur prevs)

/-- Modelled from the spec: `attach_full_artifacts`, purely additive, does
not touch delta entries. -/
def attachFullArtifacts (m : Manifest) (arts : List ArtifactRef) : Manifest :=
  { m with fullArtifacts := m.fullArtifacts ++ arts }

/-- Length-prefixed encoding of a byte sequence. -/
def encodeBytes (p : List Nat) : List Nat := p.length :: p

/-- Length-prefixed concatenation of the encodings of a list's members. -/
def encodeList (enc : α → List Nat) (l : List α) : List Nat :=
  l.length :: l.foldr (fun a r => enc a ++ r) []

/-- Canonical encoding of a version. -/
def encodeVersion (v : Version) : List Nat := [v.major, v.minor, v.patch]

/-- Canonical encoding of a patch artifact. -/
def encodePatch (pa : PatchArtifact) : List Nat :=
  pa.oldDigest :: encodeBytes pa.newData

/-- Canonical tagged encoding of a file delta. -/
def encodeDelta : FileDelta → List Nat
  | FileDelta.added p d => 0 :: (encodeBytes p ++ [d])
  | FileDelta.removed p => 1 :: encodeBytes p
  | FileDelta.unchanged p d => 2 :: (encodeBytes p ++ [d])
  | FileDelta.changed p od nd pa => 3 :: (encodeBytes p ++ [od, nd] ++ encodePatch pa)

/-- Canonical encoding of a manifest entry. -/
def encodeEntry (e : ManifestEntry) : List Nat :=
  encodeVersion e.version ++ [e.aggregateSize] ++ encodeList encodeDelta e.deltas

/-- Canonical encoding of a full-artifact reference. -/
def encodeArtifact (a : ArtifactRef) : List Nat :=
  encodeBytes a.name ++ [a.size, a.digest]

/-- Canonical encoding of the optional signature block. -/
def encodeSigOpt : Option Signature → List Nat
  | none => [0]
  | some s => 1 :: s.keyId :: s.nonce :: encodeBytes s.signed

/-- Modelled from the spec: the canonical serialized byte form of a manifest
(stable field order, no non-deterministic iteration). -/
def serializeManifest (m : Manifest) : List Nat :=
  encodeVersion m.version ++ encodeList encodeEntry m.entries ++
    encodeList encodeArtifact m.fullArtifacts ++ encodeSigOpt m.signature

/-- The finalized (pre-signature) canonical bytes of a manifest: its
serialization with the signature field stripped. -/
def finalizedBytes (m : Manifest) : List Nat :=
  serializeManifest { m with signature := none }

/-- Modelled from the spec: a whole delta-enabled run's persisted manifest —
generate entries, attach the full artifacts, finalize and sign.  `nonce` is
the signing algorithm's randomness, the run's only non-deterministic
input. -/
def signedManifest (curVersion : Version) (cur : ReleaseTree)
    (root : Option (List (DirName × ReleaseTree))) (arts : List ArtifactRef)
    (key : PrivateKey) (nonce : Nat) : Except ScanError Manifest :=
  match generatorRunModel curVersion cur root false with
  | Except.error e => Except.error e
  | Except.ok m0 =>
    let m1 := attachFullArtifacts m0 arts
    Except.ok { m1 with signature := some (sign (finalizedBytes m1) key nonce) }

/-! ### The pipeline orchestrator, embedded from `src/main.rs` -/

/-- The command-line arguments of `main.rs` the orchestrator reads. -/
structure MainArgs where
  verbose : Bool
  test_config : Bool
  updater_data_only : Bool
  packaging_only : Bool
  skip_patches : Bool
deriving DecidableEq

/-- `conf.package.installer` (main.rs line 69). -/
structure InstallerConfig where
  skip : Bool
deriving DecidableEq

/-- `conf.package.zip` (main.rs lines 76, 81). -/
structure ZipConfig where
  skip : Bool
deriving DecidableEq

/-- `conf.package.updater` (main.rs lines 92, 94). -/
structure UpdaterConfig where
  skip_sign : Bool
  private_key : Option RelPath
deriving DecidableEq

/-- `conf.package`. -/
structure PackageConfig where
  installer : InstallerConfig
  zip : ZipConfig
  updater : UpdaterConfig
deriving DecidableEq

/-- `conf.post` (main.rs line 99). -/
structure PostConfig where
  copy_to_old : Bool
deriving DecidableEq

/-- `conf.general` (main.rs line 25): only the log level is read. -/
structure GeneralConfig where
  log_level : DirName
deriving DecidableEq

/-- `conf.env` (main.rs lines 48-50): locations, only logged. -/
structure EnvConfig where
  input_dir : DirName
  previous_dir : DirName
  output_dir : DirName
deriving DecidableEq

/-- The configuration `main.rs` consumes read-only. -/
structure Config where
  general : GeneralConfig
  env : EnvConfig
  package : PackageConfig
  post : PostConfig
deriving DecidableEq

/-- The pipeline stages `main.rs` attempts, in program order. -/
inductive Step
  | prepare
  | generate
  | runNsis
  | createZips
  | finaliseManifest
  | signManifest
  | copyToOld
deriving DecidableEq

/-- An `anyhow` error chain: a raw error message, possibly wrapped by
`.context(...)` layers naming the failing stage. -/
inductive BoufError
  | raw (msg : String)
  | withContext (ctx : String) (cause : BoufError)
deriving DecidableEq

/-- The `.context(...)` string `main.rs` attaches to each stage's failure. -/
def stageContext : Step → String
  | Step.prepare => "Preparation failed"
  | Step.generate => "Error during generator run"
  | Step.runNsis => "NSIS creation/signing failed"
  | Step.createZips => "Creating zip files failed"
  | Step.finaliseManifest => "Finalising manifest failed"
  | Step.signManifest => "Signing file failed"
  | Step.copyToOld => "Copying files failed"

/-- The collaborators `main.rs` calls, abstracted as an oracle: their code is
not in the repository, so each call's outcome is an arbitrary `Except`
value.  `generatorRun`'s arguments mirror `Generator::init(&conf,
!args.updater_data_only)` and `generator.run(args.skip_patches)`. -/
structure Collab where
  fromFile : Except String Config
  applyArgs : Config → Except String Config
  prepRun : Except String Unit
  generatorRun : Bool → Bool → Except String Manifest
  runNsis : Except String Unit
  createZips : Except String Unit
  finaliseManifest : Manifest → Except String RelPath
  signFile : RelPath → Except String Unit
  copyToOld : Except String Unit

/-- The orchestrator's run state: the stages attempted so far in order, the
in-progress manifest (`Some` once the generator succeeded), the finalised
manifest file (`some` once `finalise_manifest` succeeded) and the pending
error (`some` models `main`'s early `?`-return). -/
structure RunState where
  trace : List Step
  manifest : Option Manifest
  manifestFile : Option RelPath
  error : Option BoufError
deriving DecidableEq

/-- The state a run starts in. -/
def initState : RunState :=
  { trace := [], manifest := none, manifestFile := none, error := none }

/-- One orchestrator stage: skipped entirely after an earlier failure (Rust's
`?` has already returned), skipped when its guard is off, otherwise attempted
exactly once — recorded in the trace — and, on failure, wrapping the
collaborator's error with the stage's context string. -/
def runStage (tag : Step) (ctx : String) (en : RunState → Bool)
    (act : RunState → Except String α) (upd : α → RunState → RunState)
    (s : RunState) : RunState :=
  match s.error with
  | some _ => s
  | none =>
    if en s then
      match act s with
      | Except.ok a => upd a { s with trace := s.trace ++ [tag] }
      | Except.error e =>
        { s with trace := s.trace ++ [tag],
                 error := some (BoufError.withContext ctx (BoufError.raw e)) }
    else s

/-- main.rs lines 52-57: `if !args.updater_data_only { prep.run()... }`. -/
def doPrepare (args : MainArgs) (c : Collab) (s : RunState) : RunState :=
  runStage Step.prepare "Preparation failed" (fun _ => !args.updater_data_only)
    (fun _ => c.prepRun) (fun _ t => t) s

/-- main.rs lines 59-65: `if !args.packaging_only { manifest =
Some(generator.run(args.skip_patches)...) }`. -/
def doGenerate (args : MainArgs) (c : Collab) (s : RunState) : RunState :=
  runStage Step.generate "Error during generator run" (fun _ => !args.packaging_only)
    (fun _ => c.generatorRun (!args.updater_data_only) args.skip_patches)
    (fun m t => { t with manifest := some m }) s

/-- main.rs lines 69-74: `if !conf.package.installer.skip &&
!args.updater_data_only { packager.run_nsis()... }`. -/
def doNsis (args : MainArgs) (conf : Config) (c : Collab) (s : RunState) : RunState :=
  runStage Step.runNsis "NSIS creation/signing failed"
    (fun _ => !conf.package.installer.skip && !args.updater_data_only)
    (fun _ => c.runNsis) (fun _ t => t) s

/-- main.rs lines 76-83: `if !args.updater_data_only && !conf.package.zip.skip
{ packager.create_zips()... }`. -/
def doZips (args : MainArgs) (conf : Config) (c : Collab) (s : RunState) : RunState :=
  runStage Step.createZips "Creating zip files failed"
    (fun _ => !args.updater_data_only && !conf.package.zip.skip)
    (fun _ => c.createZips) (fun _ t => t) s

/-- main.rs lines 85-90: `if let Some(mut mf) = manifest { let manifest_file =
packager.finalise_manifest(&mut mf)...; }`. -/
def doFinalise (c : Collab) (s : RunState) : RunState :=
  runStage Step.finaliseManifest "Finalising manifest failed"
    (fun t => t.manifest.isSome)
    (fun t =>
      match t.manifest with
      | some mf => c.finaliseManifest mf
      | none => Except.error "")
    (fun f t => { t with manifestFile := some f }) s

/-- main.rs lines 92-96, inside the `if let`: `if
!conf.package.updater.skip_sign { signer.sign_file(&manifest_file)... }`;
a finalised manifest file exists exactly when `finalise_manifest`
succeeded. -/
def doSign (conf : Config) (c : Collab) (s : RunState) : RunState :=
  runStage Step.signManifest "Signing file failed"
    (fun t => t.manifestFile.isSome && !conf.package.updater.skip_sign)
    (fun t =>
      match t.manifestFile with
      | some f => c.signFile f
      | none => Except.error "")
    (fun _ t => t) s

/-- main.rs lines 99-102: `if !args.updater_data_only && conf.post.copy_to_old
{ steps::post::copy_to_old(&conf)... }`. -/
def doCopyToOld (args : MainArgs) (conf : Config) (c : Collab) (s : RunState) : RunState :=
  runStage Step.copyToOld "Copying files failed"
    (fun _ => !args.updater_data_only && conf.post.copy_to_old)
    (fun _ => c.copyToOld) (fun _ t => t) s

/-- main.rs lines 52-102: the stage sequence of a validated, non-test run. -/
def stageChain (args : MainArgs) (conf : Config) (c : Collab) (s : RunState) : RunState :=
  doCopyToOld args conf c (doSign conf c (doFinalise c (doZips args conf c
    (doNsis args conf c (doGenerate args c (doPrepare args c s))))))

/-- main.rs `fn main()`: load the config (line 20), `--test-config` only
validates (lines 30-41), otherwise validate with context `"Config invalid"`
(line 44) and run the stage sequence. -/
def runMain (args : MainArgs) (c : Collab) : RunState :=
  match c.fromFile with
  | Except.error e => { initState with error := some (BoufError.raw e) }
  | Except.ok conf =>
    if args.test_config then
      match c.applyArgs conf with
      | Except.ok _ => initState
      | Except.error e => { initState with error := some (BoufError.raw e) }
    else
      match c.applyArgs conf with
      | Except.error e =>
        { initState with
          error := some (BoufError.withContext "Config invalid" (BoufError.raw e)) }
      | Except.ok conf2 => stageChain args conf2 c initState

/-- The validated configuration a non-test run operates under, when config
loading and validation succeed. -/
def effConfig (args : MainArgs) (c : Collab) : Option Config :=
  match c.fromFile with
  | Except.error _ => none
  | Except.ok conf =>
    match c.applyArgs conf with
    | Except.error _ => none
    | Except.ok conf2 => some conf2

/-- The full stage order of `main.rs`; every run's trace is a subsequence. -/
def canonicalOrder : List Step :=
  [Step.prepare, Step.generate, Step.runNsis, Step.createZips,
   Step.finaliseManifest, Step.signManifest, Step.copyToOld]

/-- A stage's position in program order. -/
def stepIdx : Step → Nat
  | Step.prepare => 0
  | Step.generate => 1
  | Step.runNsis => 2
  | Step.createZips => 3
  | Step.finaliseManifest => 4
  | Step.signManifest => 5
  | Step.copyToOld => 6

/-- An error chain is shaped as `main.rs` shapes it: either a pre-stage
(config loading/validation) failure with an empty trace, or a `.context`
wrapper naming the last attempted stage. -/
def ErrInv (s : RunState) : Prop :=
  ∀ e, s.error = some e →
    (s.trace = [] ∧ ∃ m, e = BoufError.raw m ∨
      e = BoufError.withContext "Config invalid" (BoufError.raw m)) ∨
    (∃ tr t m, s.trace = tr ++ [t] ∧
      e = BoufError.withContext (stageContext t) (BoufError.raw m))

/-- A finalised manifest file only exists once `finalise_manifest` was
attempted and succeeded, and signing is only ever attempted after that. -/
def SignInv (s : RunState) : Prop :=
  (s.manifestFile.isSome = true → Step.finaliseManifest ∈ s.trace) ∧
  (Step.signManifest ∈ s.trace → Step.finaliseManifest ∈ s.trace)

/-! ### Ordering predicates and concrete witness inputs -/

/-- A scanned (version, tree) list is strictly ascending by version. -/
abbrev versionAscending (l : List (Version × ReleaseTree)) : Prop :=
  l.Pairwise (fun x y => Version.ltb x.1 y.1 = true)

/-- A manifest-entry sequence is strictly ascending by version. -/
abbrev entriesAscending (l : List ManifestEntry) : Prop :=
  l.Pairwise (fun e1 e2 => Version.ltb e1.version e2.version = true)

/-- A file-delta sequence is strictly ascending by relative path. -/
abbrev deltasAscending (l : List FileDelta) : Prop :=
  l.Pairwise (fun d1 d2 => pathLt d1.path d2.path = true)

/-- A path list is strictly ascending. -/
abbrev pathsAscending (l : List RelPath) : Prop :=
  l.Pairwise (fun p q => pathLt p q = true)

/-- A concrete configuration for witness runs: nothing skipped. -/
def confW : Config :=
  { general := { log_level := ['i', 'n', 'f', 'o'] }
    env := { input_dir := ['i'], previous_dir := ['p'], output_dir := ['o'] }
    package :=
      { installer := { skip := false }
        zip := { skip := false }
        updater := { skip_sign := false, private_key := none } }
    post := { copy_to_old := true } }

/-- A concrete manifest value for witness runs. -/
def manifestW : Manifest :=
  { version := { major := 1, minor := 2, patch := 0 }
    entries := []
    fullArtifacts := []
    signature := none }

/-- A collaborator oracle whose every call succeeds. -/
def collabW : Collab :=
  { fromFile := Except.ok confW
    applyArgs := fun conf => Except.ok conf
    prepRun := Except.ok ()
    generatorRun := fun _ _ => Except.ok manifestW
    runNsis := Except.ok ()
    createZips := Except.ok ()
    finaliseManifest := fun _ => Except.ok [1]
    signFile := fun _ => Except.ok ()
    copyToOld := Except.ok () }

/-- Concrete arguments for witness runs: a plain full run. -/
def argsW : MainArgs :=
  { verbose := false, test_config := false, updater_data_only := false,
    packaging_only := false, skip_patches := false }

/-- Concrete arguments with `--updater-data-only` set. -/
def argsUpdaterOnly : MainArgs := { argsW with updater_data_only := true }

/-- Concrete arguments with `--packaging-only` set. -/
def argsPackagingOnly : MainArgs := { argsW with packaging_only := true }

/-- A previous release tree for the generator witness run. -/
def prevTreeW : ReleaseTree := { files := [{ path := [97], content := [1, 2] }] }

/-- The current build tree for the generator witness run. -/
def curTreeW : ReleaseTree :=
  { files := [{ path := [97], content := [1, 2, 3] }, { path := [98], content := [5] }] }

/-- The previous-versions root for the generator witness run. -/
def dirsW : List (DirName × ReleaseTree) := [(['1', '.', '0', '.', '0'], prevTreeW)]

/-! ### C1: diff/apply round-trip -/

/-- C1: for all byte sequences `old` and `new` — including empty sequences
and `old = new` — applying the patch produced by `diff` reconstructs `new`
exactly, and `applyPatch` fails with `CorruptPatch` exactly when the patch
does not match the digest of `old` recorded at patch-creation time. -/
theorem C1_diff_apply_roundtrip :
    (∀ old new : List Nat, applyPatch old (diff old new) = Except.ok new) ∧
    (∀ (old : List Nat) (p : PatchArtifact),
      applyPatch old p = Except.error DiffError.corruptPatch ↔
        digest old ≠ p.oldDigest) := by
  constructor
  · intro old new
    simp [applyPatch, diff]
  · intro old p
    unfold applyPatch
    by_cases h : digest old = p.oldDigest
    · simp [h]
    · simp [h]

/-- Witness for C1 at concrete inputs. -/
theorem C1_witness :
    applyPatch [1, 2] (diff [1, 2] [3, 4, 5]) = Except.ok [3, 4, 5] ∧
    (applyPatch [9] { oldDigest := 0, newData := [7] } =
        Except.error DiffError.corruptPatch ↔ digest [9] ≠ 0) :=
  ⟨C1_diff_apply_roundtrip.1 [1, 2] [3, 4, 5],
   C1_diff_apply_roundtrip.2 [9] { oldDigest := 0, newData := [7] }⟩

/-! ### C6: signature verification -/

/-- C6: `verify (sign bytes key) (publicKeyOf key)` is `true`; `verify` — a
total Boolean function, so it never raises — returns `false` for the signed
bytes with any single byte flipped and for a signature generated under a
different key. -/
theorem C6_sign_verify :
    ∀ (bytes : List Nat) (k : PrivateKey) (nonce : Nat),
      verify bytes (sign bytes k nonce) (publicKeyOf k) = true ∧
      (∀ (i : Nat) (hi : i < bytes.length) (v : Nat), v ≠ bytes.get ⟨i, hi⟩ →
        verify (bytes.set i v) (sign bytes k nonce) (publicKeyOf k) = false) ∧
      (∀ (k2 : PrivateKey) (n2 : Nat), publicKeyOf k2 ≠ publicKeyOf k →
        verify bytes (sign bytes k2 n2) (publicKeyOf k) = false) := by
  intro bytes k nonce
  refine ⟨by simp [verify, sign, publicKeyOf], ?_, ?_⟩
  · intro i hi v hv
    have hne : bytes ≠ bytes.set i v := by
      intro he
      apply hv
      have h1 : bytes.get? i = (bytes.set i v).get? i := by rw [← he]
      rw [List.get?_eq_get hi, List.get?_eq_getElem?, List.getElem?_set_self hi] at h1
      injection h1 with h1
      exact h1.symm
    simp [verify, sign, publicKeyOf, hne]
  · intro k2 n2 hk
    simp only [publicKeyOf] at hk
    simp [verify, sign, publicKeyOf, hk]

/-- Witness for C6 at concrete inputs. -/
theorem C6_witness :
    verify [10, 20] (sign [10, 20] { keyId := 3 } 0) (publicKeyOf { keyId := 3 }) = true ∧
    verify ([10, 20].set 1 9) (sign [10, 20] { keyId := 3 } 0)
      (publicKeyOf { keyId := 3 }) = false ∧
    verify [10, 20] (sign [10, 20] { keyId := 4 } 5) (publicKeyOf { keyId := 3 }) = false :=
  ⟨(C6_sign_verify [10, 20] { keyId := 3 } 0).1,
   (C6_sign_verify [10, 20] { keyId := 3 } 0).2.1 1 (by decide) 9 (by decide),
   (C6_sign_verify [10, 20] { keyId := 3 } 0).2.2 { keyId := 4 } 5 (by decide)⟩

/-! ### C3: skip-patches manifests are empty of entries and signable -/

/-- C3: a generator run with delta generation skipped produces a manifest
with zero `ManifestEntry` records — so only the full-artifact references the
packaging collaborator attaches — and that manifest, finalised to its
canonical bytes, is signable and verifiable. -/
theorem C3_skip_patches_manifest :
    ∀ (curVersion : Version) (cur : ReleaseTree)
      (root : Option (List (DirName × ReleaseTree))) (arts : List ArtifactRef)
      (key : PrivateKey) (nonce : Nat),
      ∃ m, generatorRunModel curVersion cur root true = Except.ok m ∧
        m.entries = [] ∧
        (attachFullArtifacts m arts).entries = [] ∧
        (attachFullArtifacts m arts).fullArtifacts = arts ∧
        verify (finalizedBytes (attachFullArtifacts m arts))
          (sign (finalizedBytes (attachFullArtifacts m arts)) key nonce)
          (publicKeyOf key) = true := by
  intro curVersion cur root arts key nonce
  refine ⟨_, rfl, rfl, rfl, rfl, ?_⟩
  simp [verify, sign, publicKeyOf]

/-! ### C7: determinism modulo the signature field -/

/-- C7: for a fixed current build tree, previous-version root, artifact set
and key, two delta-enabled runs — differing only in the signing algorithm's
randomness — produce manifests that are byte-identical once the signature
field is stripped. -/
theorem C7_deterministic_modulo_signature :
    ∀ (curVersion : Version) (cur : ReleaseTree)
      (root : Option (List (DirName × ReleaseTree))) (arts : List ArtifactRef)
      (key : PrivateKey) (n1 n2 : Nat) (m1 m2 : Manifest),
      signedManifest curVersion cur root arts key n1 = Except.ok m1 →
      signedManifest curVersion cur root arts key n2 = Except.ok m2 →
      serializeManifest { m1 with signature := none } =
        serializeManifest { m2 with signature := none } := by
  intro curVersion cur root arts key n1 n2 m1 m2 h1 h2
  unfold signedManifest at h1 h2
  cases hg : generatorRunModel curVersion cur root false with
  | error e => rw [hg] at h1; cases h1
  | ok m0 =>
    rw [hg] at h1 h2
    injection h1 with h1
    injection h2 with h2
    rw [← h1, ← h2]

/-- Witness for C7 at concrete inputs, with two different signing nonces. -/
theorem C7_witness :
    ∃ m1 m2,
      signedManifest { major := 1, minor := 0, patch := 0 } { files := [] }
        (some []) [] { keyId := 3 } 0 = Except.ok m1 ∧
      signedManifest { major := 1, minor := 0, patch := 0 } { files := [] }
        (some []) [] { keyId := 3 } 1 = Except.ok m2 ∧
      serializeManifest { m1 with signature := none } =
        serializeManifest { m2 with signature := none } :=
  ⟨_, _, rfl, rfl,
   C7_deterministic_modulo_signature { major := 1, minor := 0, patch := 0 }
     { files := [] } (some []) [] { keyId := 3 } 0 1 _ _ rfl rfl⟩

/-! ### Order lemmas for versions and paths -/

theorem Version.ltb_irrefl (a : Version) : Version.ltb a a = false := by
  cases a
  simp [Version.ltb]

theorem Version.ltb_trans {a b c : Version} (h1 : Version.ltb a b = true)
    (h2 : Version.ltb b c = true) : Version.ltb a c = true := by
  cases a; cases b; cases c
  simp only [Version.ltb, Bool.or_eq_true, Bool.and_eq_true, decide_eq_true_eq] at h1 h2 ⊢
  omega

theorem Version.ltb_cases (a b : Version) :
    a = b ∨ Version.ltb a b = true ∨ Version.ltb b a = true := by
  cases a; cases b
  simp only [Version.ltb, Version.mk.injEq, Bool.or_eq_true, Bool.and_eq_true,
    decide_eq_true_eq]
  omega

theorem Version.ltb_ne {a b : Version} (h : Version.ltb a b = true) : a ≠ b := by
  intro he
  rw [he] at h
  rw [Version.ltb_irrefl] at h
  cases h

theorem pathLt_cons (a b : Nat) (as bs : RelPath) :
    pathLt (a :: as) (b :: bs) = true ↔ a < b ∨ (a = b ∧ pathLt as bs = true) := by
  simp only [pathLt]
  by_cases hab : a < b
  · simp [hab]
  · by_cases hba : b < a
    · have hne : a ≠ b := by omega
      simp [hab, hba, hne]
    · have heq : a = b := by omega
      simp [hab, hba, heq]

theorem pathLt_irrefl (p : RelPath) : pathLt p p = false := by
  induction p with
  | nil => rfl
  | cons a as ih => simp [pathLt, ih]

theorem pathLt_trans {p q r : RelPath} (h1 : pathLt p q = true)
    (h2 : pathLt q r = true) : pathLt p r = true := by
  induction p generalizing q r with
  | nil =>
    cases q with
    | nil => exact absurd h1 (by simp [pathLt])
    | cons b bs =>
      cases r with
      | nil => exact absurd h2 (by simp [pathLt])
      | cons c cs => simp [pathLt]
  | cons a as ih =>
    cases q with
    | nil => exact absurd h1 (by simp [pathLt])
    | cons b bs =>
      cases r with
      | nil => exact absurd h2 (by simp [pathLt])
      | cons c cs =>
        rw [pathLt_cons] at h1 h2 ⊢
        rcases h1 with h1 | ⟨he1, h1⟩
        · rcases h2 with h2 | ⟨he2, h2⟩
          · exact Or.inl (Nat.lt_trans h1 h2)
          · exact Or.inl (he2 ▸ h1)
        · rcases h2 with h2 | ⟨he2, h2⟩
          · exact Or.inl (he1 ▸ h2)
          · exact Or.inr ⟨he1.trans he2, ih h1 h2⟩

theorem pathLt_cases (p q : RelPath) :
    p = q ∨ pathLt p q = true ∨ pathLt q p = true := by
  induction p generalizing q with
  | nil =>
    cases q with
    | nil => exact Or.inl rfl
    | cons b bs => exact Or.inr (Or.inl (by simp [pathLt]))
  | cons a as ih =>
    cases q with
    | nil => exact Or.inr (Or.inr (by simp [pathLt]))
    | cons b bs =>
      rcases Nat.lt_trichotomy a b with hab | hab | hab
      · exact Or.inr (Or.inl ((pathLt_cons a b as bs).mpr (Or.inl hab)))
      · rcases ih bs with he | h | h
        · exact Or.inl (by rw [hab, he])
        · exact Or.inr (Or.inl ((pathLt_cons a b as bs).mpr (Or.inr ⟨hab, h⟩)))
        · exact Or.inr (Or.inr ((pathLt_cons b a bs as).mpr (Or.inr ⟨hab.symm, h⟩)))
      · exact Or.inr (Or.inr ((pathLt_cons b a bs as).mpr (Or.inl hab)))

/-! ### Sorted-path and file-delta lemmas -/

theorem insertPath_mem {p x : RelPath} {l : List RelPath}
    (h : x ∈ insertPath p l) : x = p ∨ x ∈ l := by
  induction l with
  | nil => simpa [insertPath] using h
  | cons q qs ih =>
    unfold insertPath at h
    split_ifs at h with h1 h2
    · rcases List.mem_cons.mp h with he | hm
      · exact Or.inl he
      · exact Or.inr hm
    · rcases List.mem_cons.mp h with he | hm
      · exact Or.inr (List.mem_cons.mpr (Or.inl he))
      · rcases ih hm with he2 | hm2
        · exact Or.inl he2
        · exact Or.inr (List.mem_cons.mpr (Or.inr hm2))
    · exact Or.inr h

theorem insertPath_sorted {p : RelPath} {l : List RelPath}
    (hs : pathsAscending l) : pathsAscending (insertPath p l) := by
  induction l with
  | nil => simp [insertPath, pathsAscending]
  | cons q qs ih =>
    unfold insertPath
    have hqs : pathsAscending qs := hs.of_cons
    split_ifs with h1 h2
    · refine List.Pairwise.cons ?_ hs
      intro z hz
      rcases List.mem_cons.mp hz with he | hm
      · exact he ▸ h1
      · exact pathLt_trans h1 (List.rel_of_pairwise_cons hs hm)
    · refine List.Pairwise.cons ?_ (ih hqs)
      intro z hz
      rcases insertPath_mem hz with he | hm
      · exact he ▸ h2
      · exact List.rel_of_pairwise_cons hs hm
    · exact hs

theorem sortedPaths_sorted (l : List RelPath) : pathsAscending (sortedPaths l) := by
  induction l with
  | nil => simp [sortedPaths, pathsAscending]
  | cons p ps ih => exact insertPath_sorted ih

theorem classify_path {old cur : ReleaseTree} {p : RelPath} {d : FileDelta}
    (h : classify old cur p = some d) : d.path = p := by
  unfold classify at h
  split at h
  · cases h
  · injection h with h; rw [← h]; rfl
  · injection h with h; rw [← h]; rfl
  · split_ifs at h with h3 <;> (injection h with h; rw [← h]; rfl)

theorem fileDeltas_sorted (old cur : ReleaseTree) :
    deltasAscending (fileDeltas old cur) := by
  unfold fileDeltas
  rw [deltasAscending, List.pairwise_filterMap]
  have hs := sortedPaths_sorted (old.files.map FileRecord.path ++
    cur.files.map FileRecord.path)
  refine hs.imp ?_
  intro a b hab d1 hd1 d2 hd2
  rw [classify_path (Option.mem_def.mp hd1), classify_path (Option.mem_def.mp hd2)]
  exact hab

/-! ### Scanner lemmas -/

theorem insertVersioned_error {x : Version × ReleaseTree}
    {l : List (Version × ReleaseTree)} {e : ScanError}
    (h : insertVersioned x l = Except.error e) : e = ScanError.configError := by
  induction l with
  | nil => simp [insertVersioned] at h
  | cons y ys ih =>
    unfold insertVersioned at h
    by_cases h1 : Version.ltb x.1 y.1 = true
    · rw [if_pos h1] at h
      cases h
    · rw [if_neg h1] at h
      by_cases h2 : Version.ltb y.1 x.1 = true
      · rw [if_pos h2] at h
        cases hrec : insertVersioned x ys with
        | ok zs =>
          simp only [hrec] at h
          cases h
        | error e2 =>
          simp only [hrec, Except.error.injEq] at h
          rw [h] at hrec
          exact ih hrec
      · rw [if_neg h2] at h
        injection h with h
        exact h.symm

theorem insertVersioned_ok_perm {x : Version × ReleaseTree}
    {l l2 : List (Version × ReleaseTree)}
    (h : insertVersioned x l = Except.ok l2) : l2.Perm (x :: l) := by
  induction l generalizing l2 with
  | nil =>
    unfold insertVersioned at h
    injection h with h
    rw [← h]
  | cons y ys ih =>
    unfold insertVersioned at h
    by_cases h1 : Version.ltb x.1 y.1 = true
    · rw [if_pos h1] at h
      injection h with h
      rw [← h]
    · rw [if_neg h1] at h
      by_cases h2 : Version.ltb y.1 x.1 = true
      · rw [if_pos h2] at h
        cases hrec : insertVersioned x ys with
        | ok zs =>
          simp only [hrec, Except.ok.injEq] at h
          rw [← h]
          exact ((ih hrec).cons y).trans (List.Perm.swap x y ys)
        | error e2 =>
          simp only [hrec] at h
          cases h
      · rw [if_neg h2] at h
        cases h

theorem insertVersioned_ok_sorted {x : Version × ReleaseTree}
    {l l2 : List (Version × ReleaseTree)} (hs : versionAscending l)
    (h : insertVersioned x l = Except.ok l2) : versionAscending l2 := by
  induction l generalizing l2 with
  | nil =>
    unfold insertVersioned at h
    injection h with h
    rw [← h]
    simp [versionAscending]
  | cons y ys ih =>
    have hys : versionAscending ys := hs.of_cons
    unfold insertVersioned at h
    by_cases h1 : Version.ltb x.1 y.1 = true
    · rw [if_pos h1] at h
      injection h with h
      rw [← h]
      refine List.Pairwise.cons ?_ hs
      intro z hz
      rcases List.mem_cons.mp hz with he | hm
      · exact he ▸ h1
      · exact Version.ltb_trans h1 (List.rel_of_pairwise_cons hs hm)
    · rw [if_neg h1] at h
      by_cases h2 : Version.ltb y.1 x.1 = true
      · rw [if_pos h2] at h
        cases hrec : insertVersioned x ys with
        | ok zs =>
          simp only [hrec, Except.ok.injEq] at h
          rw [← h]
          refine List.Pairwise.cons ?_ (ih hys hrec)
          intro z hz
          rcases List.mem_cons.mp ((insertVersioned_ok_perm hrec).mem_iff.mp hz) with he | hm
          · exact he ▸ h2
          · exact List.rel_of_pairwise_cons hs hm
        | error e2 =>
          simp only [hrec] at h
          cases h
      · rw [if_neg h2] at h
        cases h

theorem versionAscending_nodup_fst {l : List (Version × ReleaseTree)}
    (hs : versionAscending l) : (l.map Prod.fst).Nodup := by
  unfold List.Nodup
  rw [List.pairwise_map]
  exact hs.imp (fun h => Version.ltb_ne h)

theorem insertVersioned_mem_error {x : Version × ReleaseTree}
    {l : List (Version × ReleaseTree)} (hs : versionAscending l)
    (hm : x.1 ∈ l.map Prod.fst) :
    insertVersioned x l = Except.error ScanError.configError := by
  induction l with
  | nil => simp at hm
  | cons y ys ih =>
    have hys : versionAscending ys := hs.of_cons
    rw [List.map_cons] at hm
    unfold insertVersioned
    rcases List.mem_cons.mp hm with he | hm2
    · have h1 : ¬ Version.ltb x.1 y.1 = true := by
        rw [he, Version.ltb_irrefl]
        simp
      have h2 : ¬ Version.ltb y.1 x.1 = true := by
        rw [he, Version.ltb_irrefl]
        simp
      rw [if_neg h1, if_neg h2]
    · by_cases h1 : Version.ltb x.1 y.1 = true
      · exfalso
        rcases List.mem_map.mp hm2 with ⟨z, hz, hze⟩
        have hyz : Version.ltb y.1 z.1 = true := List.rel_of_pairwise_cons hs hz
        have h3 : Version.ltb x.1 z.1 = true := Version.ltb_trans h1 hyz
        rw [hze, Version.ltb_irrefl] at h3
        cases h3
      · rw [if_neg h1]
        by_cases h2 : Version.ltb y.1 x.1 = true
        · rw [if_pos h2, ih hys hm2]
        · rw [if_neg h2]

theorem insertVersioned_not_mem_ok {x : Version × ReleaseTree}
    {l : List (Version × ReleaseTree)} (hs : versionAscending l)
    (hm : x.1 ∉ l.map Prod.fst) :
    ∃ l2, insertVersioned x l = Except.ok l2 := by
  induction l with
  | nil => exact ⟨[x], rfl⟩
  | cons y ys ih =>
    have hys : versionAscending ys := hs.of_cons
    rw [List.map_cons, List.mem_cons] at hm
    unfold insertVersioned
    by_cases h1 : Version.ltb x.1 y.1 = true
    · rw [if_pos h1]
      exact ⟨x :: y :: ys, rfl⟩
    · rw [if_neg h1]
      by_cases h2 : Version.ltb y.1 x.1 = true
      · rw [if_pos h2]
        have hm2 : x.1 ∉ ys.map Prod.fst := fun hmem => hm (Or.inr hmem)
        rcases ih hys hm2 with ⟨zs, hzs⟩
        rw [hzs]
        exact ⟨y :: zs, rfl⟩
      · exfalso
        rcases Version.ltb_cases x.1 y.1 with he | hlt | hlt
        · exact hm (Or.inl he)
        · exact h1 hlt
        · exact h2 hlt

theorem scanAux_ok_perm {dirs : List (DirName × ReleaseTree)}
    {acc out : List (Version × ReleaseTree)}
    (h : scanAux dirs acc = Except.ok out) :
    (out.map Prod.fst).Perm (parsedVersions dirs ++ acc.map Prod.fst) := by
  induction dirs generalizing acc with
  | nil =>
    unfold scanAux at h
    injection h with h
    rw [← h]
    simp [parsedVersions]
  | cons d rest ih =>
    unfold scanAux at h
    cases hp : parseVersion d.1 with
    | none =>
      simp only [hp] at h
      have hpv : parsedVersions (d :: rest) = parsedVersions rest := by
        simp [parsedVersions, List.filterMap_cons, hp]
      rw [hpv]
      exact ih h
    | some v =>
      simp only [hp] at h
      cases hins : insertVersioned (v, d.2) acc with
      | error e =>
        simp only [hins] at h
        cases h
      | ok acc2 =>
        simp only [hins] at h
        have hpv : parsedVersions (d :: rest) = v :: parsedVersions rest := by
          simp [parsedVersions, List.filterMap_cons, hp]
        rw [hpv]
        have h1 := ih h
        have h2 : (acc2.map Prod.fst).Perm (v :: acc.map Prod.fst) :=
          (insertVersioned_ok_perm hins).map Prod.fst
        have h3 := h1.trans ((List.Perm.refl (parsedVersions rest)).append h2)
        exact h3.trans List.perm_middle

theorem scanAux_ok_sorted {dirs : List (DirName × ReleaseTree)}
    {acc out : List (Version × ReleaseTree)} (hs : versionAscending acc)
    (h : scanAux dirs acc = Except.ok out) : versionAscending out := by
  induction dirs generalizing acc with
  | nil =>
    unfold scanAux at h
    injection h with h
    rw [← h]
    exact hs
  | cons d rest ih =>
    unfold scanAux at h
    cases hp : parseVersion d.1 with
    | none =>
      simp only [hp] at h
      exact ih hs h
    | some v =>
      simp only [hp] at h
      cases hins : insertVersioned (v, d.2) acc with
      | error e =>
        simp only [hins] at h
        cases h
      | ok acc2 =>
        simp only [hins] at h
        exact ih (insertVersioned_ok_sorted hs hins) h

theorem scanAux_dup_error {dirs : List (DirName × ReleaseTree)}
    {acc : List (Version × ReleaseTree)} (hs : versionAscending acc)
    (hdup : ¬ (parsedVersions dirs ++ acc.map Prod.fst).Nodup) :
    scanAux dirs acc = Except.error ScanError.configError := by
  induction dirs generalizing acc with
  | nil =>
    exfalso
    apply hdup
    have hpv : parsedVersions ([] : List (DirName × ReleaseTree)) = [] := by
      simp [parsedVersions]
    rw [hpv, List.nil_append]
    exact versionAscending_nodup_fst hs
  | cons d rest ih =>
    unfold scanAux
    cases hp : parseVersion d.1 with
    | none =>
      simp only [hp]
      refine ih hs ?_
      have hpv : parsedVersions (d :: rest) = parsedVersions rest := by
        simp [parsedVersions, List.filterMap_cons, hp]
      rw [hpv] at hdup
      exact hdup
    | some v =>
      simp only [hp]
      have hpv : parsedVersions (d :: rest) = v :: parsedVersions rest := by
        simp [parsedVersions, List.filterMap_cons, hp]
      rw [hpv] at hdup
      by_cases hmem : v ∈ acc.map Prod.fst
      · rw [insertVersioned_mem_error hs (x := (v, d.2)) hmem]
      · rcases insertVersioned_not_mem_ok hs (x := (v, d.2)) hmem with ⟨acc2, hins⟩
        rw [hins]
        refine ih (insertVersioned_ok_sorted hs hins) ?_
        intro hnd
        apply hdup
        have h2 : (acc2.map Prod.fst).Perm (v :: acc.map Prod.fst) :=
          (insertVersioned_ok_perm hins).map Prod.fst
        have h3 : (parsedVersions rest ++ acc2.map Prod.fst).Perm
            (v :: (parsedVersions rest ++ acc.map Prod.fst)) :=
          ((List.Perm.refl (parsedVersions rest)).append h2).trans List.perm_middle
        have h4 := h3.nodup hnd
        simpa using h4

theorem scan_ok_sorted {root : Option (List (DirName × ReleaseTree))}
    {out : List (Version × ReleaseTree)} (h : scan root = Except.ok out) :
    versionAscending out := by
  cases root with
  | none => simp [scan] at h
  | some dirs =>
    unfold scan at h
    exact scanAux_ok_sorted List.Pairwise.nil h

/-! ### C4: duplicate version directories are a ConfigError -/

/-- C4: a previous-versions root in which two distinct subdirectories parse
to the same version makes `scan` fail with `configError` — it never silently
picks one of the duplicate trees — and the generator run therefore fails
before any diffing occurs (no manifest entry and no patch is ever built). -/
theorem C4_duplicate_version_error (curVersion : Version) (cur : ReleaseTree)
    (pre mid post : List (DirName × ReleaseTree)) (n1 n2 : DirName)
    (t1 t2 : ReleaseTree) (v : Version)
    (h1 : parseVersion n1 = some v) (h2 : parseVersion n2 = some v) :
    scan (some (pre ++ (n1, t1) :: mid ++ (n2, t2) :: post)) =
      Except.error ScanError.configError ∧
    generatorRunModel curVersion cur
      (some (pre ++ (n1, t1) :: mid ++ (n2, t2) :: post)) false =
      Except.error ScanError.configError := by
  have hscan : scan (some (pre ++ (n1, t1) :: mid ++ (n2, t2) :: post)) =
      Except.error ScanError.configError := by
    unfold scan
    apply scanAux_dup_error List.Pairwise.nil
    intro hnd
    rw [List.map_nil, List.append_nil] at hnd
    have hcount := List.nodup_iff_count_le_one.mp hnd v
    have hpv : parsedVersions (pre ++ (n1, t1) :: mid ++ (n2, t2) :: post) =
        parsedVersions pre ++ v :: (parsedVersions mid ++ v :: parsedVersions post) := by
      simp only [parsedVersions, List.filterMap_append, List.filterMap_cons, h1, h2]
      simp [List.append_assoc]
    rw [hpv, List.count_append, List.count_cons_self, List.count_append,
      List.count_cons_self] at hcount
    omega
  refine ⟨hscan, ?_⟩
  unfold generatorRunModel
  rw [if_neg Bool.false_ne_true, hscan]

/-- Witness for C4: directories `1.0.0` and `1.0.0-copy` both claim version
1.0.0. -/
theorem C4_witness :
    scan (some [(['1', '.', '0', '.', '0'], prevTreeW),
      (['1', '.', '0', '.', '0', '-', 'c', 'o', 'p', 'y'], prevTreeW)]) =
      Except.error ScanError.configError ∧
    generatorRunModel { major := 2, minor := 0, patch := 0 } curTreeW
      (some [(['1', '.', '0', '.', '0'], prevTreeW),
        (['1', '.', '0', '.', '0', '-', 'c', 'o', 'p', 'y'], prevTreeW)]) false =
      Except.error ScanError.configError :=
  C4_duplicate_version_error { major := 2, minor := 0, patch := 0 } curTreeW
    [] [] [] ['1', '.', '0', '.', '0'] ['1', '.', '0', '.', '0', '-', 'c', 'o', 'p', 'y']
    prevTreeW prevTreeW { major := 1, minor := 0, patch := 0 }
    (by decide) (by decide)

/-! ### C5: manifest ordering invariants -/

/-- C5: every manifest a delta-enabled generator run produces has its entry
sequence strictly ascending by version, exactly one entry per distinct
previous version discovered (the versions are duplicate-free and are, up to
order, exactly the scanner's parsed versions), and within each entry the
file-delta sequence strictly ascending by relative path. -/
theorem C5_manifest_ordering (curVersion : Version) (cur : ReleaseTree)
    (root : Option (List (DirName × ReleaseTree))) (m : Manifest)
    (h : generatorRunModel curVersion cur root false = Except.ok m) :
    entriesAscending m.entries ∧
    (m.entries.map ManifestEntry.version).Nodup ∧
    (∀ dirs, root = some dirs →
      (m.entries.map ManifestEntry.version).Perm (parsedVersions dirs)) ∧
    (∀ e ∈ m.entries, deltasAscending e.deltas) := by
  unfold generatorRunModel at h
  rw [if_neg Bool.false_ne_true] at h
  cases hs : scan root with
  | error e => rw [hs] at h; cases h
  | ok prevs =>
    simp only [hs] at h
    injection h with h
    rw [← h]
    have hsort := scan_ok_sorted hs
    refine ⟨?_, ?_, ?_, ?_⟩
    · rw [entriesAscending, buildManifest, List.pairwise_map]
      exact hsort
    · show ((prevs.map fun pr => buildEntry cur pr.1 pr.2).map ManifestEntry.version).Nodup
      rw [List.map_map]
      exact versionAscending_nodup_fst hsort
    · intro dirs hroot
      rw [hroot] at hs
      unfold scan at hs
      have hperm := scanAux_ok_perm hs
      rw [List.map_nil, List.append_nil] at hperm
      show ((prevs.map fun pr => buildEntry cur pr.1 pr.2).map ManifestEntry.version).Perm
        (parsedVersions dirs)
      rw [List.map_map]
      exact hperm
    · intro e he
      rcases List.mem_map.mp he with ⟨pr, _, hpr⟩
      rw [← hpr]
      exact fileDeltas_sorted pr.2 cur

/-- Witness for C5 at a concrete run with one previous version. -/
theorem C5_witness :
    ∃ m, generatorRunModel { major := 2, minor := 0, patch := 0 } curTreeW
        (some dirsW) false = Except.ok m ∧
      entriesAscending m.entries ∧
      (m.entries.map ManifestEntry.version).Nodup ∧
      (m.entries.map ManifestEntry.version).Perm (parsedVersions dirsW) ∧
      (∀ e ∈ m.entries, deltasAscending e.deltas) := by
  obtain ⟨h1, h2, h3, h4⟩ :=
    C5_manifest_ordering { major := 2, minor := 0, patch := 0 } curTreeW (some dirsW) _ rfl
  exact ⟨_, rfl, h1, h2, h3 dirsW rfl, h4⟩

/-! ### Generic lemmas about one orchestrator stage -/

theorem runStage_frozen (tag : Step) (ctx : String) (en : RunState → Bool)
    (act : RunState → Except String α) (upd : α → RunState → RunState)
    (s : RunState) {e : BoufError} (h : s.error = some e) :
    runStage tag ctx en act upd s = s := by
  unfold runStage
  rw [h]

theorem runStage_disabled (tag : Step) (ctx : String) (en : RunState → Bool)
    (act : RunState → Except String α) (upd : α → RunState → RunState)
    (s : RunState) (h : en s = false) :
    runStage tag ctx en act upd s = s := by
  unfold runStage
  cases s.error with
  | some e => rfl
  | none => simp [h]

theorem runStage_ok (tag : Step) (ctx : String) (en : RunState → Bool)
    (act : RunState → Except String α) (upd : α → RunState → RunState)
    (s : RunState) (a : α) (he : s.error = none) (hen : en s = true)
    (ha : act s = Except.ok a) :
    runStage tag ctx en act upd s = upd a { s with trace := s.trace ++ [tag] } := by
  simp only [runStage, he, hen, ha, if_true]

theorem runStage_error_result (tag : Step) (ctx : String) (en : RunState → Bool)
    (act : RunState → Except String α) (upd : α → RunState → RunState)
    (s : RunState) (msg : String) (he : s.error = none) (hen : en s = true)
    (ha : act s = Except.error msg) :
    runStage tag ctx en act upd s =
      { s with trace := s.trace ++ [tag],
               error := some (BoufError.withContext ctx (BoufError.raw msg)) } := by
  simp only [runStage, he, hen, ha, if_true]

theorem runStage_trace (tag : Step) (ctx : String) (en : RunState → Bool)
    (act : RunState → Except String α) (upd : α → RunState → RunState)
    (s : RunState) (hupd : ∀ (a : α) (t : RunState), (upd a t).trace = t.trace) :
    (runStage tag ctx en act upd s).trace = s.trace ∨
      (runStage tag ctx en act upd s).trace = s.trace ++ [tag] := by
  cases he : s.error with
  | some e => rw [runStage_frozen tag ctx en act upd s he]; exact Or.inl rfl
  | none =>
    by_cases hen : en s = true
    · cases ha : act s with
      | ok a =>
        rw [runStage_ok tag ctx en act upd s a he hen ha, hupd]
        exact Or.inr rfl
      | error msg =>
        rw [runStage_error_result tag ctx en act upd s msg he hen ha]
        exact Or.inr rfl
    · have hen2 : en s = false := by simp at hen; exact hen
      rw [runStage_disabled tag ctx en act upd s hen2]
      exact Or.inl rfl

theorem runStage_mem (tag : Step) (ctx : String) (en : RunState → Bool)
    (act : RunState → Except String α) (upd : α → RunState → RunState)
    (s : RunState) (t : Step)
    (hupd : ∀ (a : α) (u : RunState), (upd a u).trace = u.trace)
    (h : t ∈ s.trace) : t ∈ (runStage tag ctx en act upd s).trace := by
  rcases runStage_trace tag ctx en act upd s hupd with heq | heq
  · rw [heq]; exact h
  · rw [heq]; exact List.mem_append_left _ h

theorem runStage_not_mem (tag : Step) (ctx : String) (en : RunState → Bool)
    (act : RunState → Except String α) (upd : α → RunState → RunState)
    (s : RunState) (t : Step)
    (hupd : ∀ (a : α) (u : RunState), (upd a u).trace = u.trace)
    (h1 : t ∉ s.trace) (h2 : t ≠ tag) :
    t ∉ (runStage tag ctx en act upd s).trace := by
  rcases runStage_trace tag ctx en act upd s hupd with heq | heq
  · rw [heq]; exact h1
  · rw [heq]
    intro hmem
    rcases List.mem_append.mp hmem with hm | hm
    · exact h1 hm
    · rw [List.mem_singleton] at hm
      exact h2 hm

theorem runStage_sublist (tag : Step) (ctx : String) (en : RunState → Bool)
    (act : RunState → Except String α) (upd : α → RunState → RunState)
    (s : RunState) {l : List Step}
    (hupd : ∀ (a : α) (u : RunState), (upd a u).trace = u.trace)
    (h : s.trace.Sublist l) :
    (runStage tag ctx en act upd s).trace.Sublist (l ++ [tag]) := by
  rcases runStage_trace tag ctx en act upd s hupd with heq | heq
  · rw [heq]
    exact h.trans (List.sublist_append_left l [tag])
  · rw [heq]
    exact h.append (List.Sublist.refl [tag])

theorem runStage_error_none (tag : Step) (ctx : String) (en : RunState → Bool)
    (act : RunState → Except String α) (upd : α → RunState → RunState)
    (s : RunState) (h : (runStage tag ctx en act upd s).error = none) :
    s.error = none := by
  cases he : s.error with
  | none => rfl
  | some e =>
    rw [runStage_frozen tag ctx en act upd s he, he] at h
    cases h

theorem runStage_manifest (tag : Step) (ctx : String) (en : RunState → Bool)
    (act : RunState → Except String α) (upd : α → RunState → RunState)
    (s : RunState)
    (hupd : ∀ (a : α) (u : RunState), (upd a u).manifest = u.manifest) :
    (runStage tag ctx en act upd s).manifest = s.manifest := by
  cases he : s.error with
  | some e => rw [runStage_frozen tag ctx en act upd s he]
  | none =>
    by_cases hen : en s = true
    · cases ha : act s with
      | ok a => rw [runStage_ok tag ctx en act upd s a he hen ha, hupd]
      | error msg => rw [runStage_error_result tag ctx en act upd s msg he hen ha]
    · have hen2 : en s = false := by simp at hen; exact hen
      rw [runStage_disabled tag ctx en act upd s hen2]

theorem runStage_mfile (tag : Step) (ctx : String) (en : RunState → Bool)
    (act : RunState → Except String α) (upd : α → RunState → RunState)
    (s : RunState)
    (hupd : ∀ (a : α) (u : RunState), (upd a u).manifestFile = u.manifestFile) :
    (runStage tag ctx en act upd s).manifestFile = s.manifestFile := by
  cases he : s.error with
  | some e => rw [runStage_frozen tag ctx en act upd s he]
  | none =>
    by_cases hen : en s = true
    · cases ha : act s with
      | ok a => rw [runStage_ok tag ctx en act upd s a he hen ha, hupd]
      | error msg => rw [runStage_error_result tag ctx en act upd s msg he hen ha]
    · have hen2 : en s = false := by simp at hen; exact hen
      rw [runStage_disabled tag ctx en act upd s hen2]

theorem runStage_errinv (tag : Step) (ctx : String) (en : RunState → Bool)
    (act : RunState → Except String α) (upd : α → RunState → RunState)
    (s : RunState)
    (hupdT : ∀ (a : α) (u : RunState), (upd a u).trace = u.trace)
    (hupdE : ∀ (a : α) (u : RunState), (upd a u).error = u.error)
    (hctx : ctx = stageContext tag)
    (h : ErrInv s) : ErrInv (runStage tag ctx en act upd s) := by
  cases he : s.error with
  | some e0 =>
    rw [runStage_frozen tag ctx en act upd s he]
    exact h
  | none =>
    by_cases hen : en s = true
    · cases ha : act s with
      | ok a =>
        rw [runStage_ok tag ctx en act upd s a he hen ha]
        intro e hres
        rw [hupdE] at hres
        have hres2 : s.error = some e := hres
        rw [he] at hres2
        cases hres2
      | error msg =>
        rw [runStage_error_result tag ctx en act upd s msg he hen ha]
        intro e hres
        have hres2 : some (BoufError.withContext ctx (BoufError.raw msg)) = some e := hres
        injection hres2 with hres3
        refine Or.inr ⟨s.trace, tag, msg, rfl, ?_⟩
        rw [← hres3, hctx]
    · have hen2 : en s = false := by simp at hen; exact hen
      rw [runStage_disabled tag ctx en act upd s hen2]
      exact h

theorem runStage_signinv_other (tag : Step) (ctx : String) (en : RunState → Bool)
    (act : RunState → Except String α) (upd : α → RunState → RunState)
    (s : RunState)
    (hupdT : ∀ (a : α) (u : RunState), (upd a u).trace = u.trace)
    (hupdF : ∀ (a : α) (u : RunState), (upd a u).manifestFile = u.manifestFile)
    (htag : tag ≠ Step.signManifest)
    (h : SignInv s) : SignInv (runStage tag ctx en act upd s) := by
  obtain ⟨hQ, hP⟩ := h
  constructor
  · intro hf
    have hf2 : s.manifestFile.isSome = true := by
      rw [← runStage_mfile tag ctx en act upd s hupdF]
      exact hf
    exact runStage_mem tag ctx en act upd s Step.finaliseManifest hupdT (hQ hf2)
  · intro hsgn
    rcases runStage_trace tag ctx en act upd s hupdT with heq | heq
    · rw [heq] at hsgn ⊢
      exact hP hsgn
    · rw [heq] at hsgn ⊢
      rcases List.mem_append.mp hsgn with hm | hm
      · exact List.mem_append_left _ (hP hm)
      · rw [List.mem_singleton] at hm
        exact absurd hm.symm htag

theorem doFinalise_signinv (c : Collab) (s : RunState) (h : SignInv s) :
    SignInv (doFinalise c s) := by
  obtain ⟨hQ, hP⟩ := h
  cases he : s.error with
  | some e =>
    have heq : doFinalise c s = s := runStage_frozen _ _ _ _ _ _ he
    rw [heq]
    exact ⟨hQ, hP⟩
  | none =>
    cases hm : s.manifest with
    | none =>
      have hen : s.manifest.isSome = false := by rw [hm]; rfl
      have heq : doFinalise c s = s := runStage_disabled _ _ _ _ _ _ hen
      rw [heq]
      exact ⟨hQ, hP⟩
    | some mf =>
      have hen : s.manifest.isSome = true := by rw [hm]; rfl
      have hact : (match s.manifest with
          | some mf2 => c.finaliseManifest mf2
          | none => Except.error "") = c.finaliseManifest mf := by rw [hm]
      cases hfin : c.finaliseManifest mf with
      | ok f =>
        have heq : doFinalise c s =
            { s with
              trace := s.trace ++ [Step.finaliseManifest]
              manifestFile := some f } :=
          runStage_ok _ _ _ _ _ _ f he hen (hact.trans hfin)
        rw [heq]
        constructor
        · intro _
          exact List.mem_append_right _ (List.mem_singleton_self _)
        · intro _
          exact List.mem_append_right _ (List.mem_singleton_self _)
      | error msg =>
        have heq : doFinalise c s =
            { s with
              trace := s.trace ++ [Step.finaliseManifest]
              error := some (BoufError.withContext "Finalising manifest failed"
                (BoufError.raw msg)) } :=
          runStage_error_result _ _ _ _ _ _ msg he hen (hact.trans hfin)
        rw [heq]
        constructor
        · intro hf
          have hf2 : s.manifestFile.isSome = true := hf
          exact List.mem_append_left _ (hQ hf2)
        · intro hsgn
          rcases List.mem_append.mp hsgn with hm2 | hm2
          · exact List.mem_append_left _ (hP hm2)
          · rw [List.mem_singleton] at hm2
            cases hm2

theorem doSign_signinv (conf : Config) (c : Collab) (s : RunState) (h : SignInv s) :
    SignInv (doSign conf c s) := by
  obtain ⟨hQ, hP⟩ := h
  cases he : s.error with
  | some e =>
    have heq : doSign conf c s = s := runStage_frozen _ _ _ _ _ _ he
    rw [heq]
    exact ⟨hQ, hP⟩
  | none =>
    cases hen : s.manifestFile.isSome && !conf.package.updater.skip_sign with
    | false =>
      have heq : doSign conf c s = s := runStage_disabled _ _ _ _ _ _ hen
      rw [heq]
      exact ⟨hQ, hP⟩
    | true =>
      have hfs : s.manifestFile.isSome = true := (Bool.and_eq_true _ _ |>.mp hen).1
      have hfin : Step.finaliseManifest ∈ s.trace := hQ hfs
      cases hmf : s.manifestFile with
      | none => rw [hmf] at hfs; cases hfs
      | some f =>
        have hact : (match s.manifestFile with
            | some f2 => c.signFile f2
            | none => Except.error "") = c.signFile f := by rw [hmf]
        cases hsig : c.signFile f with
        | ok u =>
          have heq : doSign conf c s =
              { s with trace := s.trace ++ [Step.signManifest] } :=
            runStage_ok _ _ _ _ _ _ u he hen (hact.trans hsig)
          rw [heq]
          constructor
          · intro hf
            have hf2 : s.manifestFile.isSome = true := hf
            exact List.mem_append_left _ (hQ hf2)
          · intro _
            exact List.mem_append_left _ hfin
        | error msg =>
          have heq : doSign conf c s =
              { s with
                trace := s.trace ++ [Step.signManifest]
                error := some (BoufError.withContext "Signing file failed"
                  (BoufError.raw msg)) } :=
            runStage_error_result _ _ _ _ _ _ msg he hen (hact.trans hsig)
          rw [heq]
          constructor
          · intro hf
            have hf2 : s.manifestFile.isSome = true := hf
            exact List.mem_append_left _ (hQ hf2)
          · intro _
            exact List.mem_append_left _ hfin

/-! ### Per-stage instances of the generic lemmas -/

theorem doPrepare_sublist (args : MainArgs) (c : Collab) (s : RunState) (l : List Step)
    (h : s.trace.Sublist l) :
    (doPrepare args c s).trace.Sublist (l ++ [Step.prepare]) :=
  runStage_sublist Step.prepare "Preparation failed" (fun _ => !args.updater_data_only)
    (fun _ => c.prepRun)
    (fun (_ : Unit) t => t) s (fun a t => rfl) h

theorem doPrepare_mem (args : MainArgs) (c : Collab) (s : RunState) (t : Step)
    (h : t ∈ s.trace) : t ∈ (doPrepare args c s).trace :=
  runStage_mem Step.prepare "Preparation failed" (fun _ => !args.updater_data_only)
    (fun _ => c.prepRun)
    (fun (_ : Unit) t => t) s t (fun a t => rfl) h

theorem doPrepare_not_mem (args : MainArgs) (c : Collab) (s : RunState) (t : Step)
    (h1 : t ∉ s.trace) (h2 : t ≠ Step.prepare) : t ∉ (doPrepare args c s).trace :=
  runStage_not_mem Step.prepare "Preparation failed" (fun _ => !args.updater_data_only)
    (fun _ => c.prepRun)
    (fun (_ : Unit) t => t) s t (fun a t => rfl) h1 h2

theorem doPrepare_errinv (args : MainArgs) (c : Collab) (s : RunState) (h : ErrInv s) :
    ErrInv (doPrepare args c s) :=
  runStage_errinv Step.prepare "Preparation failed" (fun _ => !args.updater_data_only)
    (fun _ => c.prepRun)
    (fun (_ : Unit) t => t) s (fun a t => rfl) (fun a t => rfl) rfl h

theorem doPrepare_manifest (args : MainArgs) (c : Collab) (s : RunState) :
    (doPrepare args c s).manifest = s.manifest :=
  runStage_manifest Step.prepare "Preparation failed" (fun _ => !args.updater_data_only)
    (fun _ => c.prepRun)
    (fun (_ : Unit) t => t) s (fun a t => rfl)

theorem doPrepare_mfile (args : MainArgs) (c : Collab) (s : RunState) :
    (doPrepare args c s).manifestFile = s.manifestFile :=
  runStage_mfile Step.prepare "Preparation failed" (fun _ => !args.updater_data_only)
    (fun _ => c.prepRun)
    (fun (_ : Unit) t => t) s (fun a t => rfl)

theorem doPrepare_signinv (args : MainArgs) (c : Collab) (s : RunState) (h : SignInv s) :
    SignInv (doPrepare args c s) :=
  runStage_signinv_other Step.prepare "Preparation failed" (fun _ => !args.updater_data_only)
    (fun _ => c.prepRun)
    (fun (_ : Unit) t => t) s (fun a t => rfl) (fun a t => rfl) (by decide) h

theorem doGenerate_sublist (args : MainArgs) (c : Collab) (s : RunState) (l : List Step)
    (h : s.trace.Sublist l) :
    (doGenerate args c s).trace.Sublist (l ++ [Step.generate]) :=
  runStage_sublist Step.generate "Error during generator run" (fun _ => !args.packaging_only)
    (fun _ => c.generatorRun (!args.updater_data_only) args.skip_patches)
    (fun m t => { t with manifest := some m }) s (fun a t => rfl) h

theorem doGenerate_mem (args : MainArgs) (c : Collab) (s : RunState) (t : Step)
    (h : t ∈ s.trace) : t ∈ (doGenerate args c s).trace :=
  runStage_mem Step.generate "Error during generator run" (fun _ => !args.packaging_only)
    (fun _ => c.generatorRun (!args.updater_data_only) args.skip_patches)
    (fun m t => { t with manifest := some m }) s t (fun a t => rfl) h

theorem doGenerate_not_mem (args : MainArgs) (c : Collab) (s : RunState) (t : Step)
    (h1 : t ∉ s.trace) (h2 : t ≠ Step.generate) : t ∉ (doGenerate args c s).trace :=
  runStage_not_mem Step.generate "Error during generator run" (fun _ => !args.packaging_only)
    (fun _ => c.generatorRun (!args.updater_data_only) args.skip_patches)
    (fun m t => { t with manifest := some m }) s t (fun a t => rfl) h1 h2

theorem doGenerate_errinv (args : MainArgs) (c : Collab) (s : RunState) (h : ErrInv s) :
    ErrInv (doGenerate args c s) :=
  runStage_errinv Step.generate "Error during generator run" (fun _ => !args.packaging_only)
    (fun _ => c.generatorRun (!args.updater_data_only) args.skip_patches)
    (fun m t => { t with manifest := some m }) s (fun a t => rfl) (fun a t => rfl) rfl h

theorem doGenerate_mfile (args : MainArgs) (c : Collab) (s : RunState) :
    (doGenerate args c s).manifestFile = s.manifestFile :=
  runStage_mfile Step.generate "Error during generator run" (fun _ => !args.packaging_only)
    (fun _ => c.generatorRun (!args.updater_data_only) args.skip_patches)
    (fun m t => { t with manifest := some m }) s (fun a t => rfl)

theorem doGenerate_signinv (args : MainArgs) (c : Collab) (s : RunState) (h : SignInv s) :
    SignInv (doGenerate args c s) :=
  runStage_signinv_other Step.generate "Error during generator run" (fun _ => !args.packaging_only)
    (fun _ => c.generatorRun (!args.updater_data_only) args.skip_patches)
    (fun m t => { t with manifest := some m }) s (fun a t => rfl) (fun a t => rfl) (by decide) h

theorem doNsis_sublist (args : MainArgs) (conf : Config) (c : Collab) (s : RunState) (l : List Step)
    (h : s.trace.Sublist l) :
    (doNsis args conf c s).trace.Sublist (l ++ [Step.runNsis]) :=
  runStage_sublist Step.runNsis "NSIS creation/signing failed" (fun _ => !conf.package.installer.skip && !args.updater_data_only)
    (fun _ => c.runNsis)
    (fun (_ : Unit) t => t) s (fun a t => rfl) h

theorem doNsis_mem (args : MainArgs) (conf : Config) (c : Collab) (s : RunState) (t : Step)
    (h : t ∈ s.trace) : t ∈ (doNsis args conf c s).trace :=
  runStage_mem Step.runNsis "NSIS creation/signing failed" (fun _ => !conf.package.installer.skip && !args.updater_data_only)
    (fun _ => c.runNsis)
    (fun (_ : Unit) t => t) s t (fun a t => rfl) h

theorem doNsis_not_mem (args : MainArgs) (conf : Config) (c : Collab) (s : RunState) (t : Step)
    (h1 : t ∉ s.trace) (h2 : t ≠ Step.runNsis) : t ∉ (doNsis args conf c s).trace :=
  runStage_not_mem Step.runNsis "NSIS creation/signing failed" (fun _ => !conf.package.installer.skip && !args.updater_data_only)
    (fun _ => c.runNsis)
    (fun (_ : Unit) t => t) s t (fun a t => rfl) h1 h2

theorem doNsis_errinv (args : MainArgs) (conf : Config) (c : Collab) (s : RunState) (h : ErrInv s) :
    ErrInv (doNsis args conf c s) :=
  runStage_errinv Step.runNsis "NSIS creation/signing failed" (fun _ => !conf.package.installer.skip && !args.updater_data_only)
    (fun _ => c.runNsis)
    (fun (_ : Unit) t => t) s (fun a t => rfl) (fun a t => rfl) rfl h

theorem doNsis_manifest (args : MainArgs) (conf : Config) (c : Collab) (s : RunState) :
    (doNsis args conf c s).manifest = s.manifest :=
  runStage_manifest Step.runNsis "NSIS creation/signing failed" (fun _ => !conf.package.installer.skip && !args.updater_data_only)
    (fun _ => c.runNsis)
    (fun (_ : Unit) t => t) s (fun a t => rfl)

theorem doNsis_mfile (args : MainArgs) (conf : Config) (c : Collab) (s : RunState) :
    (doNsis args conf c s).manifestFile = s.manifestFile :=
  runStage_mfile Step.runNsis "NSIS creation/signing failed" (fun _ => !conf.package.installer.skip && !args.updater_data_only)
    (fun _ => c.runNsis)
    (fun (_ : Unit) t => t) s (fun a t => rfl)

theorem doNsis_signinv (args : MainArgs) (conf : Config) (c : Collab) (s : RunState) (h : SignInv s) :
    SignInv (doNsis args conf c s) :=
  runStage_signinv_other Step.runNsis "NSIS creation/signing failed" (fun _ => !conf.package.installer.skip && !args.updater_data_only)
    (fun _ => c.runNsis)
    (fun (_ : Unit) t => t) s (fun a t => rfl) (fun a t => rfl) (by decide) h

theorem doZips_sublist (args : MainArgs) (conf : Config) (c : Collab) (s : RunState) (l : List Step)
    (h : s.trace.Sublist l) :
    (doZips args conf c s).trace.Sublist (l ++ [Step.createZips]) :=
  runStage_sublist Step.createZips "Creating zip files failed" (fun _ => !args.updater_data_only && !conf.package.zip.skip)
    (fun _ => c.createZips)
    (fun (_ : Unit) t => t) s (fun a t => rfl) h

theorem doZips_mem (args : MainArgs) (conf : Config) (c : Collab) (s : RunState) (t : Step)
    (h : t ∈ s.trace) : t ∈ (doZips args conf c s).trace :=
  runStage_mem Step.createZips "Creating zip files failed" (fun _ => !args.updater_data_only && !conf.package.zip.skip)
    (fun _ => c.createZips)
    (fun (_ : Unit) t => t) s t (fun a t => rfl) h

theorem doZips_not_mem (args : MainArgs) (conf : Config) (c : Collab) (s : RunState) (t : Step)
    (h1 : t ∉ s.trace) (h2 : t ≠ Step.createZips) : t ∉ (doZips args conf c s).trace :=
  runStage_not_mem Step.createZips "Creating zip files failed" (fun _ => !args.updater_data_only && !conf.package.zip.skip)
    (fun _ => c.createZips)
    (fun (_ : Unit) t => t) s t (fun a t => rfl) h1 h2

theorem doZips_errinv (args : MainArgs) (conf : Config) (c : Collab) (s : RunState) (h : ErrInv s) :
    ErrInv (doZips args conf c s) :=
  runStage_errinv Step.createZips "Creating zip files failed" (fun _ => !args.updater_data_only && !conf.package.zip.skip)
    (fun _ => c.createZips)
    (fun (_ : Unit) t => t) s (fun a t => rfl) (fun a t => rfl) rfl h

theorem doZips_manifest (args : MainArgs) (conf : Config) (c : Collab) (s : RunState) :
    (doZips args conf c s).manifest = s.manifest :=
  runStage_manifest Step.createZips "Creating zip files failed" (fun _ => !args.updater_data_only && !conf.package.zip.skip)
    (fun _ => c.createZips)
    (fun (_ : Unit) t => t) s (fun a t => rfl)

theorem doZips_mfile (args : MainArgs) (conf : Config) (c : Collab) (s : RunState) :
    (doZips args conf c s).manifestFile = s.manifestFile :=
  runStage_mfile Step.createZips "Creating zip files failed" (fun _ => !args.updater_data_only && !conf.package.zip.skip)
    (fun _ => c.createZips)
    (fun (_ : Unit) t => t) s (fun a t => rfl)

theorem doZips_signinv (args : MainArgs) (conf : Config) (c : Collab) (s : RunState) (h : SignInv s) :
    SignInv (doZips args conf c s) :=
  runStage_signinv_other Step.createZips "Creating zip files failed" (fun _ => !args.updater_data_only && !conf.package.zip.skip)
    (fun _ => c.createZips)
    (fun (_ : Unit) t => t) s (fun a t => rfl) (fun a t => rfl) (by decide) h

theorem doFinalise_sublist (c : Collab) (s : RunState) (l : List Step)
    (h : s.trace.Sublist l) :
    (doFinalise c s).trace.Sublist (l ++ [Step.finaliseManifest]) :=
  runStage_sublist Step.finaliseManifest "Finalising manifest failed" (fun t => t.manifest.isSome)
    (fun t => match t.manifest with
      | some mf => c.finaliseManifest mf
      | none => Except.error "")
    (fun f t => { t with manifestFile := some f }) s (fun a t => rfl) h

theorem doFinalise_mem (c : Collab) (s : RunState) (t : Step)
    (h : t ∈ s.trace) : t ∈ (doFinalise c s).trace :=
  runStage_mem Step.finaliseManifest "Finalising manifest failed" (fun t => t.manifest.isSome)
    (fun t => match t.manifest with
      | some mf => c.finaliseManifest mf
      | none => Except.error "")
    (fun f t => { t with manifestFile := some f }) s t (fun a t => rfl) h

theorem doFinalise_not_mem (c : Collab) (s : RunState) (t : Step)
    (h1 : t ∉ s.trace) (h2 : t ≠ Step.finaliseManifest) : t ∉ (doFinalise c s).trace :=
  runStage_not_mem Step.finaliseManifest "Finalising manifest failed" (fun t => t.manifest.isSome)
    (fun t => match t.manifest with
      | some mf => c.finaliseManifest mf
      | none => Except.error "")
    (fun f t => { t with manifestFile := some f }) s t (fun a t => rfl) h1 h2

theorem doFinalise_errinv (c : Collab) (s : RunState) (h : ErrInv s) :
    ErrInv (doFinalise c s) :=
  runStage_errinv Step.finaliseManifest "Finalising manifest failed" (fun t => t.manifest.isSome)
    (fun t => match t.manifest with
      | some mf => c.finaliseManifest mf
      | none => Except.error "")
    (fun f t => { t with manifestFile := some f }) s (fun a t => rfl) (fun a t => rfl) rfl h

theorem doFinalise_manifest (c : Collab) (s : RunState) :
    (doFinalise c s).manifest = s.manifest :=
  runStage_manifest Step.finaliseManifest "Finalising manifest failed" (fun t => t.manifest.isSome)
    (fun t => match t.manifest with
      | some mf => c.finaliseManifest mf
      | none => Except.error "")
    (fun f t => { t with manifestFile := some f }) s (fun a t => rfl)

theorem doSign_sublist (conf : Config) (c : Collab) (s : RunState) (l : List Step)
    (h : s.trace.Sublist l) :
    (doSign conf c s).trace.Sublist (l ++ [Step.signManifest]) :=
  runStage_sublist Step.signManifest "Signing file failed" (fun t => t.manifestFile.isSome && !conf.package.updater.skip_sign)
    (fun t => match t.manifestFile with
      | some f => c.signFile f
      | none => Except.error "")
    (fun (_ : Unit) t => t) s (fun a t => rfl) h

theorem doSign_mem (conf : Config) (c : Collab) (s : RunState) (t : Step)
    (h : t ∈ s.trace) : t ∈ (doSign conf c s).trace :=
  runStage_mem Step.signManifest "Signing file failed" (fun t => t.manifestFile.isSome && !conf.package.updater.skip_sign)
    (fun t => match t.manifestFile with
      | some f => c.signFile f
      | none => Except.error "")
    (fun (_ : Unit) t => t) s t (fun a t => rfl) h

theorem doSign_not_mem (conf : Config) (c : Collab) (s : RunState) (t : Step)
    (h1 : t ∉ s.trace) (h2 : t ≠ Step.signManifest) : t ∉ (doSign conf c s).trace :=
  runStage_not_mem Step.signManifest "Signing file failed" (fun t => t.manifestFile.isSome && !conf.package.updater.skip_sign)
    (fun t => match t.manifestFile with
      | some f => c.signFile f
      | none => Except.error "")
    (fun (_ : Unit) t => t) s t (fun a t => rfl) h1 h2

theorem doSign_errinv (conf : Config) (c : Collab) (s : RunState) (h : ErrInv s) :
    ErrInv (doSign conf c s) :=
  runStage_errinv Step.signManifest "Signing file failed" (fun t => t.manifestFile.isSome && !conf.package.updater.skip_sign)
    (fun t => match t.manifestFile with
      | some f => c.signFile f
      | none => Except.error "")
    (fun (_ : Unit) t => t) s (fun a t => rfl) (fun a t => rfl) rfl h

theorem doSign_manifest (conf : Config) (c : Collab) (s : RunState) :
    (doSign conf c s).manifest = s.manifest :=
  runStage_manifest Step.signManifest "Signing file failed" (fun t => t.manifestFile.isSome && !conf.package.updater.skip_sign)
    (fun t => match t.manifestFile with
      | some f => c.signFile f
      | none => Except.error "")
    (fun (_ : Unit) t => t) s (fun a t => rfl)

theorem doSign_mfile (conf : Config) (c : Collab) (s : RunState) :
    (doSign conf c s).manifestFile = s.manifestFile :=
  runStage_mfile Step.signManifest "Signing file failed" (fun t => t.manifestFile.isSome && !conf.package.updater.skip_sign)
    (fun t => match t.manifestFile with
      | some f => c.signFile f
      | none => Except.error "")
    (fun (_ : Unit) t => t) s (fun a t => rfl)

theorem doCopyToOld_sublist (args : MainArgs) (conf : Config) (c : Collab) (s : RunState) (l : List Step)
    (h : s.trace.Sublist l) :
    (doCopyToOld args conf c s).trace.Sublist (l ++ [Step.copyToOld]) :=
  runStage_sublist Step.copyToOld "Copying files failed" (fun _ => !args.updater_data_only && conf.post.copy_to_old)
    (fun _ => c.copyToOld)
    (fun (_ : Unit) t => t) s (fun a t => rfl) h

theorem doCopyToOld_mem (args : MainArgs) (conf : Config) (c : Collab) (s : RunState) (t : Step)
    (h : t ∈ s.trace) : t ∈ (doCopyToOld args conf c s).trace :=
  runStage_mem Step.copyToOld "Copying files failed" (fun _ => !args.updater_data_only && conf.post.copy_to_old)
    (fun _ => c.copyToOld)
    (fun (_ : Unit) t => t) s t (fun a t => rfl) h

theorem doCopyToOld_not_mem (args : MainArgs) (conf : Config) (c : Collab) (s : RunState) (t : Step)
    (h1 : t ∉ s.trace) (h2 : t ≠ Step.copyToOld) : t ∉ (doCopyToOld args conf c s).trace :=
  runStage_not_mem Step.copyToOld "Copying files failed" (fun _ => !args.updater_data_only && conf.post.copy_to_old)
    (fun _ => c.copyToOld)
    (fun (_ : Unit) t => t) s t (fun a t => rfl) h1 h2

theorem doCopyToOld_errinv (args : MainArgs) (conf : Config) (c : Collab) (s : RunState) (h : ErrInv s) :
    ErrInv (doCopyToOld args conf c s) :=
  runStage_errinv Step.copyToOld "Copying files failed" (fun _ => !args.updater_data_only && conf.post.copy_to_old)
    (fun _ => c.copyToOld)
    (fun (_ : Unit) t => t) s (fun a t => rfl) (fun a t => rfl) rfl h

theorem doCopyToOld_manifest (args : MainArgs) (conf : Config) (c : Collab) (s : RunState) :
    (doCopyToOld args conf c s).manifest = s.manifest :=
  runStage_manifest Step.copyToOld "Copying files failed" (fun _ => !args.updater_data_only && conf.post.copy_to_old)
    (fun _ => c.copyToOld)
    (fun (_ : Unit) t => t) s (fun a t => rfl)

theorem doCopyToOld_mfile (args : MainArgs) (conf : Config) (c : Collab) (s : RunState) :
    (doCopyToOld args conf c s).manifestFile = s.manifestFile :=
  runStage_mfile Step.copyToOld "Copying files failed" (fun _ => !args.updater_data_only && conf.post.copy_to_old)
    (fun _ => c.copyToOld)
    (fun (_ : Unit) t => t) s (fun a t => rfl)

theorem doCopyToOld_signinv (args : MainArgs) (conf : Config) (c : Collab) (s : RunState) (h : SignInv s) :
    SignInv (doCopyToOld args conf c s) :=
  runStage_signinv_other Step.copyToOld "Copying files failed" (fun _ => !args.updater_data_only && conf.post.copy_to_old)
    (fun _ => c.copyToOld)
    (fun (_ : Unit) t => t) s (fun a t => rfl) (fun a t => rfl) (by decide) h

theorem doGenerate_ok (args : MainArgs) (c : Collab) (s : RunState) (mf : Manifest)
    (he : s.error = none) (hpk : args.packaging_only = false)
    (hg : c.generatorRun (!args.updater_data_only) args.skip_patches = Except.ok mf) :
    doGenerate args c s = { s with
      trace := s.trace ++ [Step.generate]
      manifest := some mf } :=
  runStage_ok Step.generate "Error during generator run" (fun _ => !args.packaging_only)
    (fun _ => c.generatorRun (!args.updater_data_only) args.skip_patches)
    (fun m t => { t with manifest := some m }) s mf he
    (by show (!args.packaging_only) = true; rw [hpk]; rfl) hg

theorem doGenerate_error (args : MainArgs) (c : Collab) (s : RunState) (msg : String)
    (he : s.error = none) (hpk : args.packaging_only = false)
    (hg : c.generatorRun (!args.updater_data_only) args.skip_patches =
      Except.error msg) :
    doGenerate args c s = { s with
      trace := s.trace ++ [Step.generate]
      error := some (BoufError.withContext "Error during generator run"
        (BoufError.raw msg)) } :=
  runStage_error_result Step.generate "Error during generator run"
    (fun _ => !args.packaging_only)
    (fun _ => c.generatorRun (!args.updater_data_only) args.skip_patches)
    (fun m t => { t with manifest := some m }) s msg he
    (by show (!args.packaging_only) = true; rw [hpk]; rfl) hg

theorem doFinalise_ok (c : Collab) (s : RunState) (mf : Manifest) (f : RelPath)
    (he : s.error = none) (hm : s.manifest = some mf)
    (hfin : c.finaliseManifest mf = Except.ok f) :
    doFinalise c s = { s with
      trace := s.trace ++ [Step.finaliseManifest]
      manifestFile := some f } :=
  runStage_ok Step.finaliseManifest "Finalising manifest failed"
    (fun t => t.manifest.isSome)
    (fun t => match t.manifest with
      | some mf2 => c.finaliseManifest mf2
      | none => Except.error "")
    (fun f2 t => { t with manifestFile := some f2 }) s f he
    (by show s.manifest.isSome = true; rw [hm]; rfl)
    (by show (match s.manifest with
        | some mf2 => c.finaliseManifest mf2
        | none => Except.error "") = Except.ok f
        rw [hm]
        exact hfin)

theorem doFinalise_error (c : Collab) (s : RunState) (mf : Manifest) (msg : String)
    (he : s.error = none) (hm : s.manifest = some mf)
    (hfin : c.finaliseManifest mf = Except.error msg) :
    doFinalise c s = { s with
      trace := s.trace ++ [Step.finaliseManifest]
      error := some (BoufError.withContext "Finalising manifest failed"
        (BoufError.raw msg)) } :=
  runStage_error_result Step.finaliseManifest "Finalising manifest failed"
    (fun t => t.manifest.isSome)
    (fun t => match t.manifest with
      | some mf2 => c.finaliseManifest mf2
      | none => Except.error "")
    (fun f2 t => { t with manifestFile := some f2 }) s msg he
    (by show s.manifest.isSome = true; rw [hm]; rfl)
    (by show (match s.manifest with
        | some mf2 => c.finaliseManifest mf2
        | none => Except.error "") = Except.error msg
        rw [hm]
        exact hfin)

theorem doSign_ok (conf : Config) (c : Collab) (s : RunState) (f : RelPath)
    (he : s.error = none) (hf : s.manifestFile = some f)
    (hss : conf.package.updater.skip_sign = false)
    (hsig : c.signFile f = Except.ok ()) :
    doSign conf c s = { s with trace := s.trace ++ [Step.signManifest] } :=
  runStage_ok Step.signManifest "Signing file failed"
    (fun t => t.manifestFile.isSome && !conf.package.updater.skip_sign)
    (fun t => match t.manifestFile with
      | some f2 => c.signFile f2
      | none => Except.error "")
    (fun (_ : Unit) t => t) s () he
    (by show (s.manifestFile.isSome && !conf.package.updater.skip_sign) = true
        rw [hf, hss]
        rfl)
    (by show (match s.manifestFile with
        | some f2 => c.signFile f2
        | none => Except.error "") = Except.ok ()
        rw [hf]
        exact hsig)

theorem doSign_error (conf : Config) (c : Collab) (s : RunState) (f : RelPath)
    (msg : String) (he : s.error = none) (hf : s.manifestFile = some f)
    (hss : conf.package.updater.skip_sign = false)
    (hsig : c.signFile f = Except.error msg) :
    doSign conf c s = { s with
      trace := s.trace ++ [Step.signManifest]
      error := some (BoufError.withContext "Signing file failed"
        (BoufError.raw msg)) } :=
  runStage_error_result Step.signManifest "Signing file failed"
    (fun t => t.manifestFile.isSome && !conf.package.updater.skip_sign)
    (fun t => match t.manifestFile with
      | some f2 => c.signFile f2
      | none => Except.error "")
    (fun (_ : Unit) t => t) s msg he
    (by show (s.manifestFile.isSome && !conf.package.updater.skip_sign) = true
        rw [hf, hss]
        rfl)
    (by show (match s.manifestFile with
        | some f2 => c.signFile f2
        | none => Except.error "") = Except.error msg
        rw [hf]
        exact hsig)

theorem doPrepare_disabled (args : MainArgs) (c : Collab) (s : RunState)
    (h : args.updater_data_only = true) : doPrepare args c s = s :=
  runStage_disabled Step.prepare "Preparation failed" (fun _ => !args.updater_data_only)
    (fun _ => c.prepRun) (fun (_ : Unit) t => t) s
    (by show (!args.updater_data_only) = false; rw [h]; rfl)

theorem doGenerate_disabled (args : MainArgs) (c : Collab) (s : RunState)
    (h : args.packaging_only = true) : doGenerate args c s = s :=
  runStage_disabled Step.generate "Error during generator run"
    (fun _ => !args.packaging_only)
    (fun _ => c.generatorRun (!args.updater_data_only) args.skip_patches)
    (fun m t => { t with manifest := some m }) s
    (by show (!args.packaging_only) = false; rw [h]; rfl)

theorem doNsis_disabled (args : MainArgs) (conf : Config) (c : Collab) (s : RunState)
    (h : args.updater_data_only = true) : doNsis args conf c s = s :=
  runStage_disabled Step.runNsis "NSIS creation/signing failed"
    (fun _ => !conf.package.installer.skip && !args.updater_data_only)
    (fun _ => c.runNsis) (fun (_ : Unit) t => t) s
    (by show (!conf.package.installer.skip && !args.updater_data_only) = false
        rw [h]
        simp)

theorem doZips_disabled (args : MainArgs) (conf : Config) (c : Collab) (s : RunState)
    (h : args.updater_data_only = true) : doZips args conf c s = s :=
  runStage_disabled Step.createZips "Creating zip files failed"
    (fun _ => !args.updater_data_only && !conf.package.zip.skip)
    (fun _ => c.createZips) (fun (_ : Unit) t => t) s
    (by show (!args.updater_data_only && !conf.package.zip.skip) = false; rw [h]; rfl)

theorem doFinalise_disabled (c : Collab) (s : RunState)
    (h : s.manifest = none) : doFinalise c s = s :=
  runStage_disabled Step.finaliseManifest "Finalising manifest failed"
    (fun t => t.manifest.isSome)
    (fun t => match t.manifest with
      | some mf => c.finaliseManifest mf
      | none => Except.error "")
    (fun f t => { t with manifestFile := some f }) s
    (by show s.manifest.isSome = false; rw [h]; rfl)

theorem doSign_disabled (conf : Config) (c : Collab) (s : RunState)
    (h : s.manifestFile = none) : doSign conf c s = s :=
  runStage_disabled Step.signManifest "Signing file failed"
    (fun t => t.manifestFile.isSome && !conf.package.updater.skip_sign)
    (fun t => match t.manifestFile with
      | some f => c.signFile f
      | none => Except.error "")
    (fun (_ : Unit) t => t) s
    (by show (s.manifestFile.isSome && !conf.package.updater.skip_sign) = false
        rw [h]
        rfl)

/-! ### Lemmas about the whole stage chain -/

theorem stageChain_sublist (args : MainArgs) (conf : Config) (c : Collab)
    (s : RunState) (h : s.trace.Sublist []) :
    (stageChain args conf c s).trace.Sublist canonicalOrder := by
  unfold stageChain
  have h1 := doPrepare_sublist args c s [] h
  have h2 := doGenerate_sublist args c _ _ h1
  have h3 := doNsis_sublist args conf c _ _ h2
  have h4 := doZips_sublist args conf c _ _ h3
  have h5 := doFinalise_sublist c _ _ h4
  have h6 := doSign_sublist conf c _ _ h5
  exact doCopyToOld_sublist args conf c _ _ h6

theorem stageChain_errinv (args : MainArgs) (conf : Config) (c : Collab)
    (s : RunState) (h : ErrInv s) : ErrInv (stageChain args conf c s) := by
  unfold stageChain
  exact doCopyToOld_errinv args conf c _ (doSign_errinv conf c _ (doFinalise_errinv c _
    (doZips_errinv args conf c _ (doNsis_errinv args conf c _
      (doGenerate_errinv args c _ (doPrepare_errinv args c s h))))))

theorem stageChain_signinv (args : MainArgs) (conf : Config) (c : Collab)
    (s : RunState) (h : SignInv s) : SignInv (stageChain args conf c s) := by
  unfold stageChain
  exact doCopyToOld_signinv args conf c _ (doSign_signinv conf c _ (doFinalise_signinv c _
    (doZips_signinv args conf c _ (doNsis_signinv args conf c _
      (doGenerate_signinv args c _ (doPrepare_signinv args c s h))))))

theorem stageChain_pos (args : MainArgs) (conf : Config) (c : Collab) (s : RunState)
    (hpk : args.packaging_only = false)
    (h7 : (stageChain args conf c s).error = none) :
    Step.generate ∈ (stageChain args conf c s).trace ∧
    Step.finaliseManifest ∈ (stageChain args conf c s).trace ∧
    (conf.package.updater.skip_sign = false →
      Step.signManifest ∈ (stageChain args conf c s).trace) := by
  unfold stageChain at h7 ⊢
  have e6 := runStage_error_none _ _ _ _ _ _ h7
  have e5 := runStage_error_none _ _ _ _ _ _ e6
  have e4 := runStage_error_none _ _ _ _ _ _ e5
  have e3 := runStage_error_none _ _ _ _ _ _ e4
  have e2 := runStage_error_none _ _ _ _ _ _ e3
  have e1 := runStage_error_none _ _ _ _ _ _ e2
  cases hg : c.generatorRun (!args.updater_data_only) args.skip_patches with
  | error msg =>
    exfalso
    have heq := doGenerate_error args c (doPrepare args c s) msg e1 hpk hg
    rw [heq] at e2
    have e2x : some (BoufError.withContext "Error during generator run"
        (BoufError.raw msg)) = (none : Option BoufError) := e2
    cases e2x
  | ok mf =>
    have heq2 := doGenerate_ok args c (doPrepare args c s) mf e1 hpk hg
    have hg2 : Step.generate ∈ (doGenerate args c (doPrepare args c s)).trace := by
      rw [heq2]
      exact List.mem_append_right _ (List.mem_singleton_self _)
    have hm2 : (doGenerate args c (doPrepare args c s)).manifest = some mf := by
      rw [heq2]
    have hg3 := doNsis_mem args conf c _ _ hg2
    have hg4 := doZips_mem args conf c _ _ hg3
    have hg5 := doFinalise_mem c _ _ hg4
    have hg6 := doSign_mem conf c _ _ hg5
    have hg7 := doCopyToOld_mem args conf c _ _ hg6
    have hm3 := (doNsis_manifest args conf c _).trans hm2
    have hm4 := (doZips_manifest args conf c _).trans hm3
    cases hfin : c.finaliseManifest mf with
    | error msg =>
      exfalso
      have heqf := doFinalise_error c _ mf msg e4 hm4 hfin
      rw [heqf] at e5
      have e5x : some (BoufError.withContext "Finalising manifest failed"
          (BoufError.raw msg)) = (none : Option BoufError) := e5
      cases e5x
    | ok f =>
      have heqf := doFinalise_ok c _ mf f e4 hm4 hfin
      have hf5 : Step.finaliseManifest ∈ (doFinalise c (doZips args conf c
          (doNsis args conf c (doGenerate args c (doPrepare args c s))))).trace := by
        rw [heqf]
        exact List.mem_append_right _ (List.mem_singleton_self _)
      have hrf5 : (doFinalise c (doZips args conf c (doNsis args conf c
          (doGenerate args c (doPrepare args c s))))).manifestFile = some f := by
        rw [heqf]
      have hf6 := doSign_mem conf c _ _ hf5
      have hf7 := doCopyToOld_mem args conf c _ _ hf6
      refine ⟨hg7, hf7, ?_⟩
      intro hss
      cases hsig : c.signFile f with
      | error msg =>
        exfalso
        have heqs := doSign_error conf c _ f msg e5 hrf5 hss hsig
        rw [heqs] at e6
        have e6x : some (BoufError.withContext "Signing file failed"
            (BoufError.raw msg)) = (none : Option BoufError) := e6
        cases e6x
      | ok u =>
        cases u
        have heqs := doSign_ok conf c _ f e5 hrf5 hss hsig
        have hs6 : Step.signManifest ∈ (doSign conf c (doFinalise c (doZips args conf c
            (doNsis args conf c (doGenerate args c (doPrepare args c s)))))).trace := by
          rw [heqs]
          exact List.mem_append_right _ (List.mem_singleton_self _)
        exact doCopyToOld_mem args conf c _ _ hs6

theorem stageChain_error_none (args : MainArgs) (conf : Config) (c : Collab)
    (s : RunState) (h : (stageChain args conf c s).error = none) :
    s.error = none := by
  unfold stageChain at h
  have h6 := runStage_error_none _ _ _ _ _ _ h
  have h5 := runStage_error_none _ _ _ _ _ _ h6
  have h4 := runStage_error_none _ _ _ _ _ _ h5
  have h3 := runStage_error_none _ _ _ _ _ _ h4
  have h2 := runStage_error_none _ _ _ _ _ _ h3
  have h1 := runStage_error_none _ _ _ _ _ _ h2
  exact runStage_error_none _ _ _ _ _ _ h1

theorem stageChain_updater_notmem (args : MainArgs) (conf : Config) (c : Collab)
    (s : RunState) (hu : args.updater_data_only = true) (t : Step)
    (hn : t ∉ s.trace) (h2 : t ≠ Step.generate) (h3 : t ≠ Step.finaliseManifest)
    (h4 : t ≠ Step.signManifest) (h5 : t ≠ Step.copyToOld) :
    t ∉ (stageChain args conf c s).trace := by
  unfold stageChain
  rw [doPrepare_disabled args c s hu]
  have hb2 := doGenerate_not_mem args c s t hn h2
  rw [doNsis_disabled args conf c _ hu, doZips_disabled args conf c _ hu]
  have hb5 := doFinalise_not_mem c _ t hb2 h3
  have hb6 := doSign_not_mem conf c _ t hb5 h4
  exact doCopyToOld_not_mem args conf c _ t hb6 h5

theorem stageChain_packaging (args : MainArgs) (conf : Config) (c : Collab)
    (s : RunState) (hp : args.packaging_only = true)
    (hman : s.manifest = none) (hfile : s.manifestFile = none)
    (hg : Step.generate ∉ s.trace) (hf : Step.finaliseManifest ∉ s.trace)
    (hs : Step.signManifest ∉ s.trace) :
    (stageChain args conf c s).manifest = none ∧
    Step.generate ∉ (stageChain args conf c s).trace ∧
    Step.finaliseManifest ∉ (stageChain args conf c s).trace ∧
    Step.signManifest ∉ (stageChain args conf c s).trace := by
  unfold stageChain
  have m1 := (doPrepare_manifest args c s).trans hman
  have f1 := (doPrepare_mfile args c s).trans hfile
  have g1 := doPrepare_not_mem args c s _ hg (by decide)
  have ff1 := doPrepare_not_mem args c s _ hf (by decide)
  have s1 := doPrepare_not_mem args c s _ hs (by decide)
  rw [doGenerate_disabled args c _ hp]
  have m3 := (doNsis_manifest args conf c _).trans m1
  have f3 := (doNsis_mfile args conf c _).trans f1
  have g3 := doNsis_not_mem args conf c _ _ g1 (by decide)
  have ff3 := doNsis_not_mem args conf c _ _ ff1 (by decide)
  have s3 := doNsis_not_mem args conf c _ _ s1 (by decide)
  have m4 := (doZips_manifest args conf c _).trans m3
  have f4 := (doZips_mfile args conf c _).trans f3
  have g4 := doZips_not_mem args conf c _ _ g3 (by decide)
  have ff4 := doZips_not_mem args conf c _ _ ff3 (by decide)
  have s4 := doZips_not_mem args conf c _ _ s3 (by decide)
  rw [doFinalise_disabled c _ m4]
  rw [doSign_disabled conf c _ f4]
  refine ⟨(doCopyToOld_manifest args conf c _).trans m4, ?_, ?_, ?_⟩
  · exact doCopyToOld_not_mem args conf c _ _ g4 (by decide)
  · exact doCopyToOld_not_mem args conf c _ _ ff4 (by decide)
  · exact doCopyToOld_not_mem args conf c _ _ s4 (by decide)

/-! ### Lemmas about `runMain` -/

theorem signinv_empty (s : RunState) (hf : s.manifestFile = none)
    (ht : s.trace = []) : SignInv s := by
  constructor
  · intro h
    rw [hf] at h
    cases h
  · intro h
    rw [ht] at h
    cases h

theorem runMain_sublist (args : MainArgs) (c : Collab) :
    (runMain args c).trace.Sublist canonicalOrder := by
  unfold runMain
  cases c.fromFile with
  | error msg => exact List.nil_sublist _
  | ok conf =>
    dsimp only
    by_cases htc : args.test_config = true
    · rw [if_pos htc]
      cases c.applyArgs conf with
      | ok c2 => exact List.nil_sublist _
      | error msg => exact List.nil_sublist _
    · rw [if_neg htc]
      cases c.applyArgs conf with
      | error msg => exact List.nil_sublist _
      | ok conf2 => exact stageChain_sublist args conf2 c initState (List.Sublist.refl [])

theorem runMain_errinv (args : MainArgs) (c : Collab) : ErrInv (runMain args c) := by
  unfold runMain
  cases c.fromFile with
  | error msg =>
    intro e hres
    have hres2 : some (BoufError.raw msg) = some e := hres
    injection hres2 with hres3
    exact Or.inl ⟨rfl, msg, Or.inl hres3.symm⟩
  | ok conf =>
    dsimp only
    by_cases htc : args.test_config = true
    · rw [if_pos htc]
      cases c.applyArgs conf with
      | ok c2 =>
        intro e hres
        have hres2 : (none : Option BoufError) = some e := hres
        cases hres2
      | error msg =>
        intro e hres
        have hres2 : some (BoufError.raw msg) = some e := hres
        injection hres2 with hres3
        exact Or.inl ⟨rfl, msg, Or.inl hres3.symm⟩
    · rw [if_neg htc]
      cases c.applyArgs conf with
      | error msg =>
        intro e hres
        have hres2 : some (BoufError.withContext "Config invalid" (BoufError.raw msg)) =
            some e := hres
        injection hres2 with hres3
        exact Or.inl ⟨rfl, msg, Or.inr hres3.symm⟩
      | ok conf2 =>
        refine stageChain_errinv args conf2 c initState ?_
        intro e hres
        have hres2 : (none : Option BoufError) = some e := hres
        cases hres2

theorem runMain_signinv (args : MainArgs) (c : Collab) : SignInv (runMain args c) := by
  unfold runMain
  cases c.fromFile with
  | error msg => exact signinv_empty _ rfl rfl
  | ok conf =>
    dsimp only
    by_cases htc : args.test_config = true
    · rw [if_pos htc]
      cases c.applyArgs conf with
      | ok c2 => exact signinv_empty _ rfl rfl
      | error msg => exact signinv_empty _ rfl rfl
    · rw [if_neg htc]
      cases c.applyArgs conf with
      | error msg => exact signinv_empty _ rfl rfl
      | ok conf2 =>
        exact stageChain_signinv args conf2 c initState (signinv_empty _ rfl rfl)

theorem effConfig_eq (args : MainArgs) (c : Collab) (conf conf2 : Config)
    (hff : c.fromFile = Except.ok conf) (haa : c.applyArgs conf = Except.ok conf2) :
    effConfig args c = some conf2 := by
  simp only [effConfig, hff, haa]

theorem runMain_pos (args : MainArgs) (c : Collab) (ht : args.test_config = false)
    (hpk : args.packaging_only = false) (hok : (runMain args c).error = none) :
    Step.generate ∈ (runMain args c).trace ∧
    Step.finaliseManifest ∈ (runMain args c).trace ∧
    (∀ conf2, effConfig args c = some conf2 →
      conf2.package.updater.skip_sign = false →
      Step.signManifest ∈ (runMain args c).trace) := by
  unfold runMain at hok ⊢
  cases hff : c.fromFile with
  | error msg => simp [hff, initState] at hok
  | ok conf =>
    simp only [hff] at hok
    dsimp only
    rw [ht] at hok ⊢
    rw [if_neg Bool.false_ne_true] at hok ⊢
    cases haa : c.applyArgs conf with
    | error msg => simp [haa, initState] at hok
    | ok conf2 =>
      simp only [haa] at hok
      dsimp only
      obtain ⟨hg, hf, hsg⟩ := stageChain_pos args conf2 c initState hpk hok
      refine ⟨hg, hf, ?_⟩
      intro conf2x heff hss
      have he2 := (effConfig_eq args c conf conf2 hff haa).symm.trans heff
      injection he2 with he3
      rw [← he3] at hss
      exact hsg hss

theorem runMain_updater_notmem (args : MainArgs) (c : Collab)
    (hu : args.updater_data_only = true) (t : Step)
    (h2 : t ≠ Step.generate) (h3 : t ≠ Step.finaliseManifest)
    (h4 : t ≠ Step.signManifest) (h5 : t ≠ Step.copyToOld) :
    t ∉ (runMain args c).trace := by
  unfold runMain
  cases c.fromFile with
  | error msg => exact List.not_mem_nil t
  | ok conf =>
    dsimp only
    by_cases htc : args.test_config = true
    · rw [if_pos htc]
      cases c.applyArgs conf with
      | ok c2 => exact List.not_mem_nil t
      | error msg => exact List.not_mem_nil t
    · rw [if_neg htc]
      cases c.applyArgs conf with
      | error msg => exact List.not_mem_nil t
      | ok conf2 =>
        exact stageChain_updater_notmem args conf2 c initState hu t
          (List.not_mem_nil t) h2 h3 h4 h5

/-! ### C2: stage failures abort the run -/

/-- C2: every run's trace follows the fixed stage order with no stage
attempted twice (no retry); a failing run's error is the `anyhow` context
chain naming the failing stage, which is the last stage attempted (a
pre-stage config failure has an empty trace); and a fully successful
non-skip run — `error = none` models a zero exit — has attempted manifest
finalisation (the write of the manifest) exactly once. -/
theorem C2_failure_aborts_run (args : MainArgs) (c : Collab) :
    ((runMain args c).trace.Sublist canonicalOrder ∧ (runMain args c).trace.Nodup) ∧
    (∀ e, (runMain args c).error = some e →
      ((runMain args c).trace = [] ∧ ∃ m, e = BoufError.raw m ∨
        e = BoufError.withContext "Config invalid" (BoufError.raw m)) ∨
      (∃ tr t m, (runMain args c).trace = tr ++ [t] ∧
        e = BoufError.withContext (stageContext t) (BoufError.raw m))) ∧
    ((runMain args c).error = none → args.test_config = false →
      args.packaging_only = false →
      (runMain args c).trace.count Step.finaliseManifest = 1) := by
  have hsub := runMain_sublist args c
  have hnd : (runMain args c).trace.Nodup := hsub.nodup (by decide)
  refine ⟨⟨hsub, hnd⟩, runMain_errinv args c, ?_⟩
  intro hok ht hpk
  obtain ⟨hg, hf, hsg⟩ := runMain_pos args c ht hpk hok
  exact List.count_eq_one_of_mem hnd hf

/-- Witness for C2: a fully successful run exits zero with the manifest
written exactly once. -/
theorem C2_witness :
    (runMain argsW collabW).error = none ∧
    (runMain argsW collabW).trace.count Step.finaliseManifest = 1 :=
  ⟨rfl, (C2_failure_aborts_run argsW collabW).2.2 rfl rfl rfl⟩

/-! ### C8: finalisation completes before signing -/

/-- C8: in every run in which the manifest is signed, the packaging
collaborator's `finalise_manifest` (which finalises the manifest and
attaches the full-artifact metadata) completed before `sign_file` was
invoked: the finalise stage is in the trace, and every finalise occurrence
precedes every sign occurrence. -/
theorem C8_finalise_before_sign (args : MainArgs) (c : Collab)
    (h : Step.signManifest ∈ (runMain args c).trace) :
    Step.finaliseManifest ∈ (runMain args c).trace ∧
    ∀ (i j : Fin (runMain args c).trace.length),
      (runMain args c).trace.get i = Step.finaliseManifest →
      (runMain args c).trace.get j = Step.signManifest → (i : Nat) < (j : Nat) := by
  have hfin : Step.finaliseManifest ∈ (runMain args c).trace :=
    (runMain_signinv args c).2 h
  refine ⟨hfin, ?_⟩
  have hpw : (runMain args c).trace.Pairwise (fun a b => stepIdx a < stepIdx b) :=
    List.Pairwise.sublist (runMain_sublist args c) (by decide)
  intro i j hi hj
  rcases Nat.lt_trichotomy (i : Nat) (j : Nat) with hlt | heq | hgt
  · exact hlt
  · exfalso
    have hij : i = j := Fin.ext heq
    rw [hij, hj] at hi
    cases hi
  · exfalso
    have h2 := List.pairwise_iff_get.mp hpw j i hgt
    rw [hi, hj] at h2
    simp [stepIdx] at h2

/-- Witness for C8 at a concrete signed run. -/
theorem C8_witness :
    Step.signManifest ∈ (runMain argsW collabW).trace ∧
    Step.finaliseManifest ∈ (runMain argsW collabW).trace :=
  ⟨by decide, (C8_finalise_before_sign argsW collabW (by decide)).1⟩

/-! ### C9: updater-data-only runs -/

/-- C9: with `--updater-data-only` set, preparation, installer creation and
zip creation are all skipped — whatever the config's `installer.skip` and
`zip.skip` flags say — while manifest generation, finalisation and signing
still occur subject to their own flags (`--packaging-only` and
`updater.skip_sign`). -/
theorem C9_updater_data_only (args : MainArgs) (c : Collab)
    (hu : args.updater_data_only = true) (ht : args.test_config = false) :
    Step.prepare ∉ (runMain args c).trace ∧
    Step.runNsis ∉ (runMain args c).trace ∧
    Step.createZips ∉ (runMain args c).trace ∧
    ((runMain args c).error = none → args.packaging_only = false →
      Step.generate ∈ (runMain args c).trace ∧
      Step.finaliseManifest ∈ (runMain args c).trace ∧
      (∀ conf2, effConfig args c = some conf2 →
        conf2.package.updater.skip_sign = false →
        Step.signManifest ∈ (runMain args c).trace)) := by
  refine ⟨runMain_updater_notmem args c hu Step.prepare (by decide) (by decide)
      (by decide) (by decide),
    runMain_updater_notmem args c hu Step.runNsis (by decide) (by decide)
      (by decide) (by decide),
    runMain_updater_notmem args c hu Step.createZips (by decide) (by decide)
      (by decide) (by decide), ?_⟩
  intro hok hpk
  exact runMain_pos args c ht hpk hok

/-- Witness for C9: an updater-data-only run against a config in which
neither installer nor zip creation is skipped. -/
theorem C9_witness :
    Step.prepare ∉ (runMain argsUpdaterOnly collabW).trace ∧
    Step.runNsis ∉ (runMain argsUpdaterOnly collabW).trace ∧
    Step.signManifest ∈ (runMain argsUpdaterOnly collabW).trace :=
  ⟨(C9_updater_data_only argsUpdaterOnly collabW rfl rfl).1,
   (C9_updater_data_only argsUpdaterOnly collabW rfl rfl).2.1,
   (((C9_updater_data_only argsUpdaterOnly collabW rfl rfl).2.2.2 rfl rfl).2.2
     confW rfl rfl)⟩

/-! ### C10: packaging-only runs -/

/-- C10: with `--packaging-only` set, no manifest is generated, so manifest
finalisation and manifest signing are never performed — even when
`updater.skip_sign` is false. -/
theorem C10_packaging_only (args : MainArgs) (c : Collab)
    (hp : args.packaging_only = true) :
    (runMain args c).manifest = none ∧
    Step.generate ∉ (runMain args c).trace ∧
    Step.finaliseManifest ∉ (runMain args c).trace ∧
    Step.signManifest ∉ (runMain args c).trace := by
  unfold runMain
  cases c.fromFile with
  | error msg =>
    exact ⟨rfl, List.not_mem_nil _, List.not_mem_nil _, List.not_mem_nil _⟩
  | ok conf =>
    dsimp only
    by_cases htc : args.test_config = true
    · rw [if_pos htc]
      cases c.applyArgs conf with
      | ok c2 => exact ⟨rfl, List.not_mem_nil _, List.not_mem_nil _, List.not_mem_nil _⟩
      | error msg =>
        exact ⟨rfl, List.not_mem_nil _, List.not_mem_nil _, List.not_mem_nil _⟩
    · rw [if_neg htc]
      cases c.applyArgs conf with
      | error msg =>
        exact ⟨rfl, List.not_mem_nil _, List.not_mem_nil _, List.not_mem_nil _⟩
      | ok conf2 =>
        exact stageChain_packaging args conf2 c initState hp rfl rfl
          (List.not_mem_nil _) (List.not_mem_nil _) (List.not_mem_nil _)

/-- Witness for C10: a packaging-only run with signing not skipped. -/
theorem C10_witness :
    (runMain argsPackagingOnly collabW).manifest = none ∧
    Step.signManifest ∉ (runMain argsPackagingOnly collabW).trace :=
  ⟨(C10_packaging_only argsPackagingOnly collabW rfl).1,
   (C10_packaging_only argsPackagingOnly collabW rfl).2.2.2⟩

end Bouf
